import Mathlib

/-!
# ez-badges — verification of the icon/badge pipeline claims

A shallow embedding of the badge generator's core code
(`src/utils/constants.js`, `src/utils/iconUtils.js`, and the color/badge
utility modules) and proofs settling the frozen claims C1–C10.

Modelling conventions:
* JavaScript strings and Node buffers are both modelled as `List Nat` of
  byte/code-point values; all inputs exercised by the claims are ASCII, where
  a JS UTF-16 code unit, a UTF-8 byte and a code point coincide.
* JS numbers are modelled as `ℚ`; `Math.round x` is `⌊x + 1/2⌋`, `Math.ceil`
  is `⌈x⌉`.  Exact IEEE-754 float behaviour (NaN/Infinity propagation and
  decimal printing of non-integers) is outside the model; every numeric value
  a claim exercises is an integer, where `ℚ` and doubles agree.
* `null`/`undefined`-able strings are `Option (List Nat)`; JS string
  truthiness is `s ≠ ""`.
* Effectful externals (`axios` fetch, `DOMPurify.sanitize`, `sharp`,
  `potrace`) are oracle parameters: an `Option _` holding the external call's
  outcome, `none` meaning it failed/threw.  All control flow around them is
  the repository's own code, translated statement by statement.
* JS regex `.replace` passes are modelled by `scanRw`, a left-to-right
  scanner that at each position asks a match function for a replacement and
  a matched length, advances past a match, otherwise keeps the character and
  moves one position — exactly the semantics of a global, non-overlapping
  regex replace whose failed match attempt at one index retries at the next.
-/

/-- The byte/code-point list of an (ASCII) string literal. -/
def asBytes (s : String) : List Nat := s.toList.map Char.toNat

/-- JS `toLowerCase` on one ASCII code unit. -/
def lowerByte (b : Nat) : Nat := if 65 ≤ b ∧ b ≤ 90 then b + 32 else b

/-- JS `toLowerCase` over a whole string (ASCII fragment of the model). -/
def lowerAll (l : List Nat) : List Nat := l.map lowerByte

/-- Membership of a code unit in JS `\s` (the ASCII part). -/
def isWsByte (b : Nat) : Bool := b == 32 || b == 9 || b == 10 || b == 11 || b == 12 || b == 13

/-- ASCII decimal digit. -/
def isDigitByte (b : Nat) : Bool := 48 ≤ b && b ≤ 57

/-- ASCII hex digit (either case). -/
def isHexByte (b : Nat) : Bool :=
  (48 ≤ b && b ≤ 57) || (97 ≤ b && b ≤ 102) || (65 ≤ b && b ≤ 70)

/-- Value of one hex digit. -/
def hexVal (b : Nat) : Nat :=
  if 48 ≤ b ∧ b ≤ 57 then b - 48
  else if 97 ≤ b ∧ b ≤ 102 then b - 87
  else if 65 ≤ b ∧ b ≤ 70 then b - 55
  else 0

/-- JS `String.prototype.trim` (ASCII whitespace). -/
def trimBytes (l : List Nat) : List Nat :=
  ((l.dropWhile isWsByte).reverse.dropWhile isWsByte).reverse

/-- Match `pat` exactly at the start of the input; `some rest` on success. -/
def patAt : List Nat → List Nat → Option (List Nat)
  | [], l => some l
  | _ :: _, [] => none
  | p :: ps, c :: cs => if c = p then patAt ps cs else none

/-- Case-insensitive `patAt`: `pat` is given lowercased, input is lowered
per character (regex `i` flag, ASCII). -/
def patAtCI : List Nat → List Nat → Option (List Nat)
  | [], l => some l
  | _ :: _, [] => none
  | p :: ps, c :: cs => if lowerByte c = p then patAtCI ps cs else none

/-- JS `String.prototype.includes` (exact, case-sensitive). -/
def containsSeq (pat : List Nat) : List Nat → Bool
  | [] => (patAt pat []).isSome
  | c :: cs => (patAt pat (c :: cs)).isSome || containsSeq pat cs

/-- Split the haystack around the first occurrence of `pat`:
`some (pre, post)` with `hay = pre ++ pat ++ post`.  An empty `pat` is found
at index 0 (as in JS `replace`). -/
def findSplit (pat : List Nat) : List Nat → Option (List Nat × List Nat)
  | [] => if pat.isEmpty then some ([], []) else none
  | c :: cs =>
    match patAt pat (c :: cs) with
    | some rest => some ([], rest)
    | none => (findSplit pat cs).map (fun pq => (c :: pq.1, pq.2))

/-- JS `$`-patterns in a string replacement: `$$` → `$`, `$&` → matched text,
a `$`-backtick → the portion before the match, `$'` → the portion after it;
any other `$` is literal (m = matched, pre/post = surrounding portions). -/
def dollarExpand (m pre post : List Nat) : List Nat → List Nat
  | [] => []
  | [c] => [c]
  | c :: d :: r2 =>
    if c = 36 then
      if d = 36 then 36 :: dollarExpand m pre post r2
      else if d = 38 then m ++ dollarExpand m pre post r2
      else if d = 96 then pre ++ dollarExpand m pre post r2
      else if d = 39 then post ++ dollarExpand m pre post r2
      else c :: dollarExpand m pre post (d :: r2)
    else c :: dollarExpand m pre post (d :: r2)

/-- JS `hay.replace(pat, rep)` with a *string* pattern: first occurrence
only, `$`-patterns expanded in the replacement. -/
def jsReplaceFirst (hay pat rep : List Nat) : List Nat :=
  match findSplit pat hay with
  | none => hay
  | some (pre, post) => pre ++ dollarExpand pat pre post rep ++ post

/-- One global regex-replace pass: `tr l` returns `some (repl, k)` when a
match of length `k ≥ 1` starts at the head of `l`, to be replaced by `repl`;
scanning resumes after the match (or one character further on failure). -/
def scanRw (tr : List Nat → Option (List Nat × Nat)) (l : List Nat) : List Nat :=
  match l with
  | [] => []
  | c :: rest =>
    match tr (c :: rest) with
    | some (repl, k) => repl ++ scanRw tr (List.drop (k - 1) rest)
    | none => c :: scanRw tr rest
termination_by l.length
decreasing_by
  · simp only [List.length_cons, List.length_drop]; omega
  · simp

/-- Scanning passes over a chunk whose characters can never start a match
(`P`-chunks are transparent to `tr`). -/
theorem scanRw_skip_chunk (tr : List Nat → Option (List Nat × Nat))
    (P : Nat → Prop) (htr : ∀ c l, P c → tr (c :: l) = none)
    (D : List Nat) (hD : ∀ c ∈ D, P c) (rest : List Nat) :
    scanRw tr (D ++ rest) = D ++ scanRw tr rest := by
  induction D with
  | nil => simp
  | cons c D ih =>
    rw [List.cons_append, scanRw]
    rw [htr c (D ++ rest) (hD c (by simp))]
    rw [ih (fun x hx => hD x (by simp [hx]))]
    simp

/-- JS `Math.round` (round half toward +∞) on the rational model. -/
def jsRound (x : ℚ) : ℚ := ((⌊x + 1 / 2⌋ : ℤ) : ℚ)

/-- JS `Math.ceil` on the rational model. -/
def jsCeil (x : ℚ) : ℚ := ((⌈x⌉ : ℤ) : ℚ)

/-- Decimal rendering of a natural (JS template interpolation of a Nat). -/
def natBytes (n : Nat) : List Nat := asBytes (Nat.repr n)

/-- Decimal rendering of an integer. -/
def intBytes (i : ℤ) : List Nat := asBytes (Int.repr i)

/-- Template interpolation of a JS number.  Every value interpolated on a
reachable path of the claims is an integer; for non-integers IEEE-754
shortest-decimal printing is outside the model and a `num/den` form stands
in. -/
def qBytes (q : ℚ) : List Nat :=
  if q.den = 1 then intBytes q.num else intBytes q.num ++ [47] ++ natBytes q.den

set_option maxRecDepth 4096 in
/-- `toString` of a natural below 256 is all ASCII digits. -/
theorem natBytes_digits : ∀ n : Nat, n < 256 → ∀ c ∈ natBytes n, 48 ≤ c ∧ c ≤ 57 := by
  decide

/-!
## `src/utils/constants.js`
-/

/-- An RGB triple (each component a JS number that is in fact a Nat here). -/
structure Rgb where
  r : Nat
  g : Nat
  b : Nat
deriving DecidableEq, Repr

/-- `COLORS` of `src/utils/constants.js`, in source order. -/
def COLORS : List (List Nat × Rgb) := [
  (asBytes "black", ⟨0, 0, 0⟩),
  (asBytes "white", ⟨255, 255, 255⟩),
  (asBytes "grayLight", ⟨245, 245, 247⟩),
  (asBytes "gray", ⟨128, 128, 128⟩),
  (asBytes "grayDark", ⟨64, 64, 64⟩),
  (asBytes "slate", ⟨112, 128, 144⟩),
  (asBytes "charcoal", ⟨54, 69, 79⟩),
  (asBytes "blue", ⟨0, 122, 255⟩),
  (asBytes "lightBlue", ⟨173, 216, 230⟩),
  (asBytes "skyBlue", ⟨135, 206, 235⟩),
  (asBytes "teal", ⟨0, 150, 136⟩),
  (asBytes "cyan", ⟨0, 188, 212⟩),
  (asBytes "green", ⟨76, 175, 80⟩),
  (asBytes "mint", ⟨152, 251, 152⟩),
  (asBytes "seafoam", ⟨120, 219, 226⟩),
  (asBytes "olive", ⟨128, 128, 0⟩),
  (asBytes "emerald", ⟨80, 200, 120⟩),
  (asBytes "yellow", ⟨255, 235, 59⟩),
  (asBytes "amber", ⟨255, 191, 0⟩),
  (asBytes "orange", ⟨255, 152, 0⟩),
  (asBytes "peach", ⟨255, 218, 185⟩),
  (asBytes "gold", ⟨255, 215, 0⟩),
  (asBytes "red", ⟨244, 67, 54⟩),
  (asBytes "coral", ⟨255, 127, 80⟩),
  (asBytes "salmon", ⟨250, 128, 114⟩),
  (asBytes "pink", ⟨255, 192, 203⟩),
  (asBytes "rose", ⟨255, 102, 102⟩),
  (asBytes "purple", ⟨156, 39, 176⟩),
  (asBytes "lavender", ⟨230, 230, 250⟩),
  (asBytes "lilac", ⟨200, 162, 200⟩),
  (asBytes "violet", ⟨148, 0, 211⟩),
  (asBytes "indigo", ⟨75, 0, 130⟩),
  (asBytes "sand", ⟨244, 236, 219⟩),
  (asBytes "beige", ⟨245, 245, 220⟩),
  (asBytes "ivory", ⟨255, 255, 240⟩),
  (asBytes "blush", ⟨222, 93, 131⟩),
  (asBytes "sage", ⟨188, 184, 138⟩),
  (asBytes "dustyBlue", ⟨96, 147, 172⟩),
  (asBytes "terracotta", ⟨204, 78, 92⟩)]

/-- `COLORS.white`. -/
def whiteRgb : Rgb := ⟨255, 255, 255⟩

/-- The regex `/^[0-9A-Fa-f]{6}$/` of `parseColor`. -/
def isHex6 (s : List Nat) : Bool := s.length == 6 && s.all isHexByte

/-- `parseInt(color.substr(2k, 2), 16)` on a pair of hex digits. -/
def hexPairVal (s : List Nat) : Nat := hexVal (s.getD 0 0) * 16 + hexVal (s.getD 1 0)

/-- The direct hex decode branch of `parseColor`. -/
def hexDecodeRgb (s : List Nat) : Rgb :=
  ⟨hexPairVal (s.take 2), hexPairVal ((s.drop 2).take 2), hexPairVal (s.drop 4)⟩

/-- The property names `COLORS[key]` can reach through the prototype chain:
`COLORS` is an object literal, so bracket access on a key that is no own
property falls through to `Object.prototype`, whose members are all truthy
(functions, or `Object.prototype` itself for the `__proto__` accessor). -/
def protoKeys : List (List Nat) := [
  asBytes "constructor", asBytes "hasOwnProperty", asBytes "isPrototypeOf",
  asBytes "propertyIsEnumerable", asBytes "toLocaleString", asBytes "toString",
  asBytes "valueOf", asBytes "__proto__", asBytes "__defineGetter__",
  asBytes "__defineSetter__", asBytes "__lookupGetter__", asBytes "__lookupSetter__"]

/-- What `parseColor` returns: an object with numeric `r`/`g`/`b` fields
(hex decode, an own palette entry, or the `COLORS.white` fallback), or a
truthy `Object.prototype` member reached through the prototype chain, on
which reading `r`/`g`/`b` gives `undefined`. -/
inductive ColorVal where
  | rgbVal (c : Rgb)
  | protoVal
  deriving DecidableEq

/-- The JS property read `.r` on a `parseColor` result (`none` =
`undefined`). -/
def ColorVal.r : ColorVal → Option Nat
  | .rgbVal c => some c.r
  | .protoVal => none

/-- The JS property read `.g` on a `parseColor` result. -/
def ColorVal.g : ColorVal → Option Nat
  | .rgbVal c => some c.g
  | .protoVal => none

/-- The JS property read `.b` on a `parseColor` result. -/
def ColorVal.b : ColorVal → Option Nat
  | .rgbVal c => some c.b
  | .protoVal => none

/-- Template interpolation `${x}` of a possibly-`undefined` JS number. -/
def jsValBytes : Option Nat → List Nat
  | some n => natBytes n
  | none => asBytes "undefined"

/-- `parseColor` of `colorUtils.js`.  `none` stands for any non-string JS
value (the `typeof color !== 'string'` guard); otherwise a 6-hex-digit
string decodes directly, and anything else goes through
`COLORS[color.toLowerCase()] || COLORS.white`: an own palette entry if the
lowercased key is one, else a truthy `Object.prototype` member if the key
names one (the `||` fallback is skipped), else `undefined`, hence
`COLORS.white`. -/
def parseColor : Option (List Nat) → ColorVal
  | none => .rgbVal whiteRgb
  | some color =>
    if isHex6 color then .rgbVal (hexDecodeRgb color)
    else
      match List.lookup (lowerAll color) COLORS with
      | some c => .rgbVal c
      | none => if lowerAll color ∈ protoKeys then .protoVal else .rgbVal whiteRgb

/-- The `rgb(r, g, b)` text `changeSvgColor` (and the badge renderer)
interpolates from a parsed color; reads off a prototype member interpolate
as `undefined`. -/
def fcBytes (c : ColorVal) : List Nat :=
  asBytes "rgb(" ++ jsValBytes c.r ++ asBytes ", " ++ jsValBytes c.g ++
    asBytes ", " ++ jsValBytes c.b ++ asBytes ")"

/-!
## `colorUtils.js` — `changeSvgColor`

Each `.replace(regex, cb)` of the source is one `scanRw` pass with a match
function transcribing the regex and the callback.
-/

/-- The preserve test shared by the `fill=`/`stroke=` attribute callbacks
and the inline-style callbacks: `value.trim().toLowerCase()` equal to
`none`/`transparent`, starting with `url(`, or containing `gradient`
(`currentColor` is *not* checked by the source). -/
def preservedVal (v : List Nat) : Bool :=
  let n := lowerAll (trimBytes v)
  n == asBytes "none" || n == asBytes "transparent" ||
    (patAt (asBytes "url(") n).isSome || containsSeq (asBytes "gradient") n

/-- Match function for `/fill=(["'])([^"']*)\1/gi` and
`/stroke=(["'])([^"']*)\1/gi`: `name` is `fill`/`stroke` (lowercased, the
regex is case-insensitive), the closing quote must equal the opening one
(backreference), and a preserved value keeps the original matched text. -/
def tryPaintAttr (name FC : List Nat) (l : List Nat) : Option (List Nat × Nat) :=
  match patAtCI (name ++ [61]) l with
  | none => none
  | some r1 =>
    match r1 with
    | [] => none
    | q :: r2 =>
      if q = 34 ∨ q = 39 then
        let v := r2.takeWhile (fun b => !(b == 34 || b == 39))
        match r2.drop v.length with
        | [] => none
        | q2 :: _ =>
          if q2 = q then
            let k := name.length + 2 + v.length + 1
            if preservedVal v then some (l.take k, k)
            else some (name ++ [61, q] ++ FC ++ [q], k)
          else none
      else none

/-- The content capture of `/<style[^>]*>(.*?)<\/style>/gi`: the shortest
run of characters (none of which may be a line terminator, JS `.`) up to a
case-insensitive `</style>`. -/
def styleContentSpan : List Nat → Option (List Nat)
  | [] => none
  | c :: cs =>
    if (patAtCI (asBytes "</style>") (c :: cs)).isSome then some []
    else if c = 10 ∨ c = 13 then none
    else
      match styleContentSpan cs with
      | some content => some (c :: content)
      | none => none

/-- Match function for the unconditional declaration rewrites inside a
`<style>` block: `/fill:\s*([^;}]+)/gi` (and `stroke:`/`color:`/
`stop-color:`), every occurrence rewritten to `name FC` with no preserve
check. -/
def tryDeclAll (name FC : List Nat) (l : List Nat) : Option (List Nat × Nat) :=
  match patAtCI name l with
  | none => none
  | some r1 =>
    let ws := r1.takeWhile isWsByte
    let v := (r1.drop ws.length).takeWhile (fun b => !(b == 59 || b == 125))
    if v.isEmpty then none
    else some (name ++ [32] ++ FC, name.length + ws.length + v.length)

/-- The four sequential rewrites applied to a `<style>` block's content. -/
def rewriteStyleContent (FC content : List Nat) : List Nat :=
  scanRw (tryDeclAll (asBytes "stop-color:") FC)
    (scanRw (tryDeclAll (asBytes "color:") FC)
      (scanRw (tryDeclAll (asBytes "stroke:") FC)
        (scanRw (tryDeclAll (asBytes "fill:") FC) content)))

/-- Match function for `/<style[^>]*>(.*?)<\/style>/gi`: the callback builds
the rewritten content and splices it with `match.replace(content,
newContent)` — a first-occurrence *string* replace inside the matched text. -/
def tryStyleBlock (FC : List Nat) (l : List Nat) : Option (List Nat × Nat) :=
  match patAtCI (asBytes "<style") l with
  | none => none
  | some r1 =>
    let sp := r1.takeWhile (fun b => b != 62)
    match r1.drop sp.length with
    | [] => none
    | _ :: r3 =>
      match styleContentSpan r3 with
      | none => none
      | some content =>
        let k := 6 + sp.length + 1 + content.length + 8
        let m := l.take k
        some (jsReplaceFirst m content (rewriteStyleContent FC content), k)

/-- Match function for the conditional declaration rewrites inside a
`style="…"` attribute: `/fill:\s*([^;]+)/gi` (and `stroke:`), preserved
values keep the whole matched declaration. -/
def tryDeclCond (name FC : List Nat) (l : List Nat) : Option (List Nat × Nat) :=
  match patAtCI name l with
  | none => none
  | some r1 =>
    let ws := r1.takeWhile isWsByte
    let v := (r1.drop ws.length).takeWhile (fun b => b != 59)
    if v.isEmpty then none
    else
      let k := name.length + ws.length + v.length
      if preservedVal v then some (l.take k, k)
      else some (name ++ [32] ++ FC, k)

/-- Match function for `/style=(["'])([^"']*)\1/gi`: the attribute's content
goes through the `fill:` then `stroke:` conditional rewrites. -/
def tryStyleAttr (FC : List Nat) (l : List Nat) : Option (List Nat × Nat) :=
  match patAtCI (asBytes "style=") l with
  | none => none
  | some r1 =>
    match r1 with
    | [] => none
    | q :: r2 =>
      if q = 34 ∨ q = 39 then
        let v := r2.takeWhile (fun b => !(b == 34 || b == 39))
        match r2.drop v.length with
        | [] => none
        | q2 :: _ =>
          if q2 = q then
            let newContent :=
              scanRw (tryDeclCond (asBytes "stroke:") FC)
                (scanRw (tryDeclCond (asBytes "fill:") FC) v)
            some (asBytes "style=" ++ [q] ++ newContent ++ [q], 6 + 1 + v.length + 1)
          else none
      else none

/-- Match function for `/(<path[^>]*?)(>)/gi` and its `forEach` clones for
`circle`/`rect`/`ellipse`/`polygon`/`polyline`: a tag that carries no
(case-sensitive) `fill=` gets ` fill="FC"` appended before the `>`. -/
def tryElemInsert (elname FC : List Nat) (l : List Nat) : Option (List Nat × Nat) :=
  match patAtCI (60 :: elname) l with
  | none => none
  | some r1 =>
    let sp := r1.takeWhile (fun b => b != 62)
    match r1.drop sp.length with
    | [] => none
    | _ :: _ =>
      let tagLen := 1 + elname.length + sp.length
      let tag := l.take tagLen
      let k := tagLen + 1
      if containsSeq (asBytes "fill=") tag then some (l.take k, k)
      else some (tag ++ asBytes " fill=\"" ++ FC ++ asBytes "\">", k)

/-- The attribute-span capture of `/<image([^>]*?)\/>/g`: the shortest run
of non-`>` characters up to a `/>`. -/
def imgAttrsSpan : List Nat → Option (List Nat)
  | [] => none
  | c :: cs =>
    if (patAt (asBytes "/>") (c :: cs)).isSome then some []
    else if c = 62 then none
    else
      match imgAttrsSpan cs with
      | some sp => some (c :: sp)
      | none => none

/-- First-occurrence rewrite of `/filter="[^"]*"/` inside the matched
`<image …/>` text (a no-op when that regex has no match there). -/
def replaceFilterAttr (m : List Nat) : List Nat :=
  match findSplit (asBytes "filter=\"") m with
  | none => m
  | some (pre, post) =>
    let v := post.takeWhile (fun b => b != 34)
    if v.length < post.length then
      pre ++ asBytes "filter=\"url(#subtle-colorize)\"" ++ post.drop (v.length + 1)
    else m

/-- Match function for `/<image([^>]*?)\/>/g` in the raster branch: an
existing `filter="…"` is redirected to `#subtle-colorize`, otherwise the
filter attribute is inserted before the `/>`. -/
def tryImageFilter (l : List Nat) : Option (List Nat × Nat) :=
  match patAt (asBytes "<image") l with
  | none => none
  | some r1 =>
    match imgAttrsSpan r1 with
    | none => none
    | some attrs =>
      let k := 6 + attrs.length + 2
      if containsSeq (asBytes "filter=") attrs then some (replaceFilterAttr (l.take k), k)
      else some (asBytes "<image" ++ attrs ++ asBytes " filter=\"url(#subtle-colorize)\"/>", k)

/-- The interpolation `${rgb.x / 255}` of the raster-branch filter:
`undefined / 255` is `NaN` in JS and prints as `NaN`. -/
def ratioBytes : Option Nat → List Nat
  | some n => qBytes ((n : ℚ) / 255)
  | none => asBytes "NaN"

/-- The `subtle-colorize` filter markup interpolated in the raster branch.
The three `${rgb.x/255}` interpolations are rendered through `qBytes`; their
IEEE-754 decimal printing is outside the model (no claim reads this branch's
output). -/
def subtleFilterBytes (rgb : ColorVal) : List Nat :=
  asBytes "\n        <filter id=\"subtle-colorize\">\n          <feComponentTransfer>\n            <feFuncR type=\"linear\" slope=\"1.0\" intercept=\"0\"/>\n            <feFuncG type=\"linear\" slope=\"1.0\" intercept=\"0\"/>\n            <feFuncB type=\"linear\" slope=\"1.0\" intercept=\"0\"/>\n          </feComponentTransfer>\n          <feColorMatrix type=\"saturate\" values=\"1.0\"/>\n          <feColorMatrix type=\"matrix\" values=\"0 0 0 0 " ++
    ratioBytes rgb.r ++
    asBytes "\n                                               0 0 0 0 " ++
    ratioBytes rgb.g ++
    asBytes "\n                                               0 0 0 0 " ++
    ratioBytes rgb.b ++
    asBytes "\n                                               0 0 0 1 0\"/>\n          <feComponentTransfer>\n            <feFuncR type=\"gamma\" amplitude=\"1\" exponent=\"1.0\"/>\n            <feFuncG type=\"gamma\" amplitude=\"1\" exponent=\"1.0\"/>\n            <feFuncB type=\"gamma\" amplitude=\"1\" exponent=\"1.0\"/>\n          </feComponentTransfer>\n          <feColorMatrix type=\"saturate\" values=\"1.0\"/>\n        </filter>"

/-- The `enhanced.includes('<image')` branch of `changeSvgColor`: inject the
colorize filter after the first `<defs>` and point every `<image …/>` at it. -/
def imageColorize (rgb : ColorVal) (svg : List Nat) : List Nat :=
  scanRw tryImageFilter
    (jsReplaceFirst svg (asBytes "<defs>") (asBytes "<defs>" ++ subtleFilterBytes rgb))

/-- The pure-vector pass chain of `changeSvgColor`, in source order:
`fill=`, `stroke=`, `<style>` blocks, `style=` attributes, then the
default-fill insertion for `path`, `circle`, `rect`, `ellipse`, `polygon`,
`polyline`. -/
def vectorRecolor (FC : List Nat) (svg : List Nat) : List Nat :=
  scanRw (tryElemInsert (asBytes "polyline") FC)
    (scanRw (tryElemInsert (asBytes "polygon") FC)
      (scanRw (tryElemInsert (asBytes "ellipse") FC)
        (scanRw (tryElemInsert (asBytes "rect") FC)
          (scanRw (tryElemInsert (asBytes "circle") FC)
            (scanRw (tryElemInsert (asBytes "path") FC)
              (scanRw (tryStyleAttr FC)
                (scanRw (tryStyleBlock FC)
                  (scanRw (tryPaintAttr (asBytes "stroke") FC)
                    (scanRw (tryPaintAttr (asBytes "fill") FC) svg)))))))))

/-- `changeSvgColor` of `colorUtils.js`. -/
def changeSvgColor (svgString : List Nat) (targetColor : Option (List Nat)) : List Nat :=
  let rgb := parseColor targetColor
  if containsSeq (asBytes "<image") svgString then imageColorize rgb svgString
  else vectorRecolor (fcBytes rgb) svgString

/-!
## `src/utils/iconUtils.js`
-/

/-- `isValidImageBuffer` of `iconUtils.js`: reject empty buffers and HTML
markers in the first 200 bytes, then accept on a PNG/JPEG/GIF87a/GIF89a/WebP
magic-number prefix or an SVG text marker.  (A UTF-8 decode of the first 200
bytes is searched in the source; an ASCII pattern occurs in that decode
exactly when its byte sequence occurs in the bytes, which is what is checked
here.) -/
def isValidImageBuffer (buffer : List Nat) : Bool :=
  if buffer.isEmpty then false
  else
    let start := buffer.take 200
    if containsSeq (asBytes "<html") start || containsSeq (asBytes "<!DOCTYPE") start ||
        containsSeq (asBytes "Error") start || containsSeq (asBytes "<body") start then
      false
    else if (patAt [137, 80, 78, 71, 13, 10, 26, 10] buffer).isSome ||
        (patAt [255, 216, 255] buffer).isSome ||
        (patAt [71, 73, 70, 56, 55, 97] buffer).isSome ||
        (patAt [71, 73, 70, 56, 57, 97] buffer).isSome ||
        (patAt [82, 73, 70, 70] buffer).isSome then true
    else if containsSeq (asBytes "<svg") start || containsSeq (asBytes "<?xml") start then true
    else false

/-- `isValidImageBuffer` on a possibly-`null` buffer (the source's
`!buffer` guard). -/
def isValidImageBufferOpt : Option (List Nat) → Bool
  | none => false
  | some b => isValidImageBuffer b

/-- `isSvgBuffer` of `iconUtils.js`: lowercase and trim the first 300 bytes,
then the source's three-way marker disjunction. -/
def isSvgBuffer (buffer : List Nat) : Bool :=
  if buffer.isEmpty then false
  else
    let normalized := trimBytes (lowerAll (buffer.take 300))
    containsSeq (asBytes "<svg") normalized ||
      (containsSeq (asBytes "<?xml") normalized &&
        (containsSeq (asBytes "<svg") normalized || containsSeq (asBytes "svg") normalized)) ||
      ((patAt (asBytes "<?xml") normalized).isSome && containsSeq (asBytes "svg") normalized)

/-- Numeric value of a digit run. -/
def digitsValN (ds : List Nat) : Nat := ds.foldl (fun acc d => acc * 10 + (d - 48)) 0

/-- JS `parseFloat` on the decimal fragment the model covers: optional
whitespace and sign, digits with an optional fraction, an optional exponent;
`none` is `NaN` (no digits).  The `Infinity` literal is a float value with
no rational counterpart and is outside the model. -/
def parseJsFloat (l : List Nat) : Option ℚ :=
  let l1 := l.dropWhile isWsByte
  let sgn : ℚ := match l1 with
    | 45 :: _ => -1
    | _ => 1
  let l2 := match l1 with
    | 43 :: r => r
    | 45 :: r => r
    | _ => l1
  let ip := l2.takeWhile isDigitByte
  let r2 := l2.drop ip.length
  let fp := match r2 with
    | 46 :: r => r.takeWhile isDigitByte
    | _ => []
  let r3 := match r2 with
    | 46 :: r => r.drop (r.takeWhile isDigitByte).length
    | _ => r2
  if ip.isEmpty ∧ fp.isEmpty then none
  else
    let mant : ℚ := (digitsValN ip : ℚ) + (digitsValN fp : ℚ) / (10 : ℚ) ^ fp.length
    let expv : ℤ := match r3 with
      | e :: r4 =>
        if e = 101 ∨ e = 69 then
          let es : ℤ := match r4 with
            | 45 :: _ => -1
            | _ => 1
          let r5 := match r4 with
            | 43 :: r => r
            | 45 :: r => r
            | _ => r4
          let ed := r5.takeWhile isDigitByte
          if ed.isEmpty then 0 else es * (digitsValN ed : ℤ)
        else 0
      | [] => 0
    some (sgn * mant * (10 : ℚ) ^ expv)

/-- `dropWhile` never lengthens a list (termination helper). -/
theorem dropWhile_len_le (p : Nat → Bool) (l : List Nat) :
    (l.dropWhile p).length ≤ l.length := by
  induction l with
  | nil => simp
  | cons c cs ih =>
    rw [List.dropWhile]
    cases p c with
    | true => simpa using Nat.le_succ_of_le ih
    | false => simp

/-- JS `str.split(/\s+/)`: tokens between maximal whitespace runs, with an
empty leading token for a leading run and an empty trailing token for a
trailing one. -/
def splitWs (l : List Nat) : List (List Nat) :=
  let tok := l.takeWhile (fun b => !isWsByte b)
  let rest := l.drop tok.length
  if h : rest.isEmpty then [tok]
  else tok :: splitWs ((rest.drop 1).dropWhile isWsByte)
termination_by l.length
decreasing_by
  have h1 : (List.dropWhile isWsByte ((l.drop
      (l.takeWhile (fun b => !isWsByte b)).length).drop 1)).length ≤
      ((l.drop (l.takeWhile (fun b => !isWsByte b)).length).drop 1).length :=
    dropWhile_len_le _ _
  have h2 : (l.drop (l.takeWhile (fun b => !isWsByte b)).length).length ≤ l.length := by
    simp
  have h3 : (l.drop (l.takeWhile (fun b => !isWsByte b)).length).length ≠ 0 := by
    intro hz
    apply h
    have he : l.drop (l.takeWhile (fun b => !isWsByte b)).length = [] :=
      List.length_eq_zero.mp hz
    simp only [List.isEmpty_iff]
    exact he
  simp only [List.length_drop] at *
  omega

/-- First-match capture of `/NAME=["']([^"']+)["']/` (case-sensitive, no
backreference: the closing quote may be either kind, the capture must be
nonempty).  Used for `viewBox=`, `width=`, `height=` in `processSvgImage`;
like the source regex it also fires on e.g. `stroke-width=`. -/
def attrCapture (pat : List Nat) : List Nat → Option (List Nat)
  | [] => none
  | c :: cs =>
    match patAt pat (c :: cs) with
    | some (q :: r2) =>
      if q = 34 ∨ q = 39 then
        let v := r2.takeWhile (fun b => !(b == 34 || b == 39))
        if 0 < v.length ∧ v.length < r2.length then some v else attrCapture pat cs
      else attrCapture pat cs
    | _ => attrCapture pat cs

/-- The intrinsic box `processSvgImage` extracts (lines 131–151): `viewBox`
is preferred when its regex matches (even a malformed one keeps the 24×24
default without falling back to the attributes), else the `width=`/`height=`
attributes, else 24×24; `parseFloat(x) || 24` turns `NaN` and `0` into 24,
and the final guards reset non-positive sizes to 24. -/
structure SvgBox where
  vx : ℚ
  vy : ℚ
  w : ℚ
  h : ℚ
deriving Repr

/-- `parseFloat(s) || 0`. -/
def jsOr0 (o : Option ℚ) : ℚ :=
  match o with
  | none => 0
  | some v => v

/-- `parseFloat(s) || 24` (`0` is falsy in JS). -/
def jsOr24 (o : Option ℚ) : ℚ :=
  match o with
  | none => 24
  | some v => if v = 0 then 24 else v

/-- Dimension extraction of `processSvgImage` (see `SvgBox`). -/
def svgIntrinsicSize (svg : List Nat) : SvgBox :=
  let init : SvgBox :=
    match attrCapture (asBytes "viewBox=") svg with
    | some vb =>
      let parts := splitWs vb
      if 4 ≤ parts.length then
        ⟨jsOr0 (parseJsFloat (parts.getD 0 [])), jsOr0 (parseJsFloat (parts.getD 1 [])),
         jsOr24 (parseJsFloat (parts.getD 2 [])), jsOr24 (parseJsFloat (parts.getD 3 []))⟩
      else ⟨0, 0, 24, 24⟩
    | none =>
      ⟨0, 0,
       match attrCapture (asBytes "width=") svg with
       | some w => jsOr24 (parseJsFloat w)
       | none => 24,
       match attrCapture (asBytes "height=") svg with
       | some h => jsOr24 (parseJsFloat h)
       | none => 24⟩
  ⟨init.vx, init.vy, if init.w ≤ 0 then 24 else init.w, if init.h ≤ 0 then 24 else init.h⟩

/-- `targetWidth` of `processSvgImage`: `Math.round(16 * aspectRatio)`.  The
`isNaN/isFinite` fallback of the source is unreachable here because the
extracted box always has positive rational sides. -/
def svgTargetWidth (svg : List Nat) : ℚ :=
  jsRound (16 * ((svgIntrinsicSize svg).w / (svgIntrinsicSize svg).h))

/-- The `{svgString, width, height}` record the icon processors return. -/
structure SvgRes where
  svgString : List Nat
  width : ℚ
  height : ℚ

/-- `processSvgImage` of `iconUtils.js`.  `DOMPurify.sanitize` is external:
`sanitized` is its outcome (`none` = it threw, caught by the source's
`try/catch` into a `null` return).  The root-element attribute rewrite
(lines 163–184) only re-serialises the markup; no claim reads the markup, so
the returned `svgString` carries the sanitized text and the modelled fields
are the width/height computed by lines 131–161. -/
def processSvgImage (sanitized : Option (List Nat)) : Option SvgRes :=
  sanitized.map (fun s => ⟨s, svgTargetWidth s, 16⟩)

/-- `processPixelImage` of `iconUtils.js`: the early
`isValidImageBuffer` rejection is the repository's code; everything after it
(sharp metadata/resize, potrace tracing, base64 envelope) is external I/O
whose outcome is the `sharpOutcome` oracle (`none` = any of those threw,
caught into a `null` return). -/
def processPixelImage (buffer : List Nat) (sharpOutcome : Option SvgRes) : Option SvgRes :=
  if isValidImageBuffer buffer then sharpOutcome else none

/-- JS string truthiness of a nullable string. -/
def jsTruthyStr : Option (List Nat) → Bool
  | none => false
  | some s => !s.isEmpty

/-- One sextet to its base64 alphabet code. -/
def b64Char (n : Nat) : Nat :=
  if n < 26 then 65 + n
  else if n < 52 then 97 + (n - 26)
  else if n < 62 then 48 + (n - 52)
  else if n = 62 then 43
  else 47

/-- `Buffer.toString('base64')`. -/
def base64Bytes : List Nat → List Nat
  | [] => []
  | [a] => [b64Char (a / 4), b64Char (a % 4 * 16), 61, 61]
  | [a, b] => [b64Char (a / 4), b64Char (a % 4 * 16 + b / 16), b64Char (b % 16 * 4), 61]
  | a :: b :: c :: rest =>
    [b64Char (a / 4), b64Char (a % 4 * 16 + b / 16), b64Char (b % 16 * 4 + c / 64),
     b64Char (c % 64)] ++ base64Bytes rest

/-- The `{dataUri, width, height}` record `generateIcon` returns. -/
structure IconData where
  dataUri : List Nat
  width : ℚ
  height : ℚ

/-- `generateIcon` of `iconUtils.js`.  `fetchOutcome` is `fetchImage`'s
result (`none` = axios threw: timeout, connection error, non-2xx status —
all caught into a `null` return); `sanitized` and `sharpOutcome` are the
oracles of `processSvgImage`/`processPixelImage`. -/
def generateIcon (iconParam : Option (List Nat)) (iconColor : Option (List Nat))
    (fetchOutcome : Option (List Nat)) (sanitized : Option (List Nat))
    (sharpOutcome : Option SvgRes) : Option IconData :=
  if !jsTruthyStr iconParam then none
  else
    match fetchOutcome with
    | none => none
    | some buffer =>
      let result :=
        if isSvgBuffer buffer then processSvgImage sanitized
        else processPixelImage buffer sharpOutcome
      match result with
      | none => none
      | some r =>
        let svgStr :=
          if jsTruthyStr iconColor then changeSvgColor r.svgString iconColor else r.svgString
        some ⟨asBytes "data:image/svg+xml;base64," ++ base64Bytes svgStr, r.width, r.height⟩

/-!
## `badgeUtils.js`
-/

/-- The derived geometry `calculateBadgeDimensions` returns. -/
structure BadgeDims where
  height : ℚ
  iconWidth : ℚ
  iconHeight : ℚ
  padding : ℚ
  iconPadding : ℚ
  iconX : ℚ
  iconY : ℚ
  textX : ℚ
  textY : ℚ

/-- The icon-box clamp of `calculateBadgeDimensions` (the body of its
`if (iconData)` block): clamp the box to 32×20, recompute the other
dimension from the original aspect ratio when a clamp fired, then force a
12px minimum height (recomputing the width from the ratio again, without
re-clamping it). -/
def clampIconBox (w h : ℚ) : ℚ × ℚ :=
  let iw0 := min w 32
  let ih0 := min h 20
  let ratio := w / h
  let s1 : ℚ × ℚ :=
    if iw0 < w then (iw0, jsRound (iw0 / ratio))
    else if ih0 < h then (jsRound (ih0 * ratio), ih0)
    else (iw0, ih0)
  if s1.2 < 12 then (jsRound (12 * ratio), 12) else s1

/-- `calculateBadgeDimensions` of `badgeUtils.js` (the icon clamp is
`clampIconBox`). -/
def calculateBadgeDimensions (iconData : Option IconData) : BadgeDims :=
  let padding : ℚ := 12
  let iconPadding : ℚ := if iconData.isSome then 8 else 0
  let wh : ℚ × ℚ :=
    match iconData with
    | none => (0, 0)
    | some d => clampIconBox d.width d.height
  let height : ℚ := 32
  ⟨height, wh.1, wh.2, padding, iconPadding, padding,
   jsRound ((height - wh.2 - 2) / 2), padding + wh.1 + iconPadding,
   jsRound (height / 2 + 4)⟩

/-- The `charWidths` table of `calculateTextWidth` (keys as ASCII codes, in
source order; `123`/`125` are the brace characters). -/
def charWidths : List (Nat × ℚ) := [
  (105, 4), (108, 4), (106, 4.5), (116, 5), (102, 5.5), (114, 6),
  (97, 7), (99, 7), (101, 7), (110, 7.5), (111, 7.5), (115, 7), (117, 7.5),
  (118, 7), (120, 7), (122, 7),
  (98, 7.5), (100, 7.5), (103, 7.5), (104, 7.5), (107, 7.5), (112, 7.5),
  (113, 7.5), (121, 7),
  (109, 11), (119, 11),
  (48, 7.5), (49, 5), (50, 7.5), (51, 7.5), (52, 7.5), (53, 7.5), (54, 7.5),
  (55, 7.5), (56, 7.5), (57, 7.5),
  (32, 4), (46, 4), (44, 4), (58, 4), (59, 4), (33, 4.5), (63, 7.5), (45, 5),
  (95, 7.5),
  (40, 5), (41, 5), (91, 5), (93, 5), (123, 5.5), (125, 5.5), (47, 5.5),
  (92, 5.5), (124, 4),
  (43, 8), (61, 8), (60, 8), (62, 8), (64, 12), (35, 8.5), (36, 7.5),
  (37, 12), (94, 7),
  (38, 9.5), (42, 6), (126, 8), (96, 5), (39, 4), (34, 6)]

/-- `char === char.toUpperCase() && char !== char.toLowerCase()` (ASCII). -/
def isUpperByte (c : Nat) : Bool := 65 ≤ c && c ≤ 90

/-- `calculateTextWidth` of `badgeUtils.js`: per-character widths (uppercase
scaled by 1.1, unknown characters 8), per-character letter-spacing
`fontSize * 0.1`, an empirical 1.2 factor, then `Math.ceil`. -/
def calculateTextWidth (text : List Nat) (fontSize : ℚ) : ℚ :=
  let base := text.foldl
    (fun acc c =>
      match List.lookup (lowerByte c) charWidths with
      | some w => acc + (if isUpperByte c then w * 1.1 else w)
      | none => acc + 8)
    0
  jsCeil ((base + ((text.length : ℚ) - 1) * (fontSize * 0.1)) * 1.2)

/-- The `switch (edges.toLowerCase())` of `generateBadgeSvg` building the
`rx`/`ry` fragment of the background rect; the default case leaves it
empty. -/
def cornerRadiusFragment (edges : List Nat) (height : ℚ) : List Nat :=
  let e := lowerAll edges
  if e = asBytes "rounded" ∨ e = asBytes "round" then asBytes "rx=\"8\" ry=\"8\""
  else if e = asBytes "square" ∨ e = asBytes "sharp" ∨ e = asBytes "squared" then
    asBytes "rx=\"0\" ry=\"0\""
  else if e = asBytes "pill" then
    asBytes "rx=\"" ++ qBytes (height / 2) ++ asBytes "\" ry=\"" ++ qBytes (height / 2) ++
      asBytes "\""
  else []

/-- The `iconSection` template of `generateBadgeSvg`. -/
def iconSectionBytes (dims : BadgeDims) : Option IconData → List Nat
  | none => []
  | some d =>
    asBytes "\n  <image\n    href=\"" ++ d.dataUri ++
      asBytes "\"\n    x=\"" ++ qBytes dims.iconX ++
      asBytes "\"\n    y=\"" ++ qBytes dims.iconY ++
      asBytes "\"\n    width=\"" ++ qBytes dims.iconWidth ++
      asBytes "\"\n    height=\"" ++ qBytes dims.iconHeight ++
      asBytes "\"\n    style=\"image-rendering: optimizeQuality;\"/>\n    "

/-- The conditional `<text>` element of `generateBadgeSvg`
(`text !== null && text !== undefined`; an empty string still renders an
empty element). -/
def textSectionBytes (dims : BadgeDims) (finalTextColor : List Nat) (fontSize : ℚ) :
    Option (List Nat) → List Nat
  | none => []
  | some t =>
    asBytes "<text\n      x=\"" ++ qBytes (dims.padding + dims.iconWidth + dims.iconPadding) ++
      asBytes "\"\n      y=\"" ++ qBytes (dims.height / 2) ++
      asBytes "\"\n      text-anchor=\"start\"\n      dominant-baseline=\"middle\"\n      fill=\"" ++
      finalTextColor ++
      asBytes "\"\n      font-size=\"" ++ qBytes fontSize ++
      asBytes "\"\n      font-weight=\"600\"\n      font-family=\"Verdana, system-ui, sans-serif\"\n      style=\"text-rendering: optimizeLegibility;\n      letter-spacing: 0.2em;\">" ++
      t ++ asBytes "</text>"

/-- `generateBadgeSvg` of `badgeUtils.js`: parse the colors, compute the
layout, estimate the text width (`if (text)` truthiness: a missing or empty
text contributes 0), and assemble the SVG template. -/
def generateBadgeSvg (text : Option (List Nat)) (bgColor : Option (List Nat))
    (iconData : Option IconData) (textColor : Option (List Nat)) (edges : List Nat) :
    List Nat :=
  let bgColorFormatted := fcBytes (parseColor bgColor)
  let finalTextColor := fcBytes (parseColor textColor)
  let dims := calculateBadgeDimensions iconData
  let fontSize : ℚ := 11
  let textWidth : ℚ :=
    if jsTruthyStr text then
      calculateTextWidth (text.getD []) fontSize + dims.iconPadding
    else 0
  let totalWidth := dims.padding + dims.iconWidth + dims.padding + textWidth
  asBytes "\n    <svg\n      fill=\"white\"\n      width=\"" ++ qBytes totalWidth ++
    asBytes "\"\n      height=\"" ++ qBytes dims.height ++
    asBytes "\"\n      viewBox=\"0 0 " ++ qBytes totalWidth ++ [32] ++ qBytes dims.height ++
    asBytes "\"\n      xmlns=\"http://www.w3.org/2000/svg\"\n      shape-rendering=\"geometricPrecision\"\n      text-rendering=\"optimizeLegibility\"\n      image-rendering=\"optimizeQuality\"\n      color-rendering=\"optimizeQuality\">\n    <rect\n      width=\"" ++
    qBytes totalWidth ++
    asBytes "\"\n      height=\"" ++ qBytes dims.height ++
    asBytes "\"\n      fill=\"" ++ bgColorFormatted ++
    asBytes "\"\n      " ++ cornerRadiusFragment edges dims.height ++
    asBytes "/>\n    " ++ iconSectionBytes dims iconData ++
    asBytes "\n\n    " ++ textSectionBytes dims finalTextColor fontSize text ++
    asBytes "\n  </svg>"

/-!
## Helper lemmas
-/

/-- A successful association-list lookup's pair is a member of the list. -/
theorem lookup_some_mem {α β : Type} [BEq α] [LawfulBEq α] {k : α} {v : β} :
    ∀ {l : List (α × β)}, List.lookup k l = some v → (k, v) ∈ l := by
  intro l
  induction l with
  | nil => intro h; simp [List.lookup] at h
  | cons p es ih =>
    intro h
    rcases p with ⟨a, b⟩
    rw [List.lookup] at h
    split at h
    · next heq =>
      obtain rfl : b = v := by simpa using h
      have ha : a = k := (by simpa using heq : k = a).symm
      subst ha
      simp
    · next => exact List.mem_cons_of_mem _ (ih h)

/-- A single hex digit's value is at most 15. -/
theorem hexVal_le (b : Nat) : hexVal b ≤ 15 := by
  unfold hexVal
  split_ifs <;> omega

/-- A hex pair's value is at most 255. -/
theorem hexPairVal_le (s : List Nat) : hexPairVal s ≤ 255 := by
  unfold hexPairVal
  have h1 := hexVal_le (s.getD 0 0)
  have h2 := hexVal_le (s.getD 1 0)
  omega

set_option maxRecDepth 2048 in
/-- Every palette entry has components at most 255. -/
theorem colors_le : ∀ p ∈ COLORS, p.2.r ≤ 255 ∧ p.2.g ≤ 255 ∧ p.2.b ≤ 255 := by
  decide

/-!
## Claim theorems
-/

/-- `parseColor` always returns components in `[0, 255]`. -/
theorem parseColor_le (c : Option (List Nat)) (v : Rgb)
    (hv : parseColor c = ColorVal.rgbVal v) :
    v.r ≤ 255 ∧ v.g ≤ 255 ∧ v.b ≤ 255 := by
  match c with
  | none =>
    rw [parseColor] at hv
    obtain rfl : whiteRgb = v := by simpa using hv
    exact ⟨by decide, by decide, by decide⟩
  | some s =>
    rw [parseColor] at hv
    by_cases h : isHex6 s
    · rw [if_pos h] at hv
      obtain rfl : hexDecodeRgb s = v := by simpa using hv
      exact ⟨hexPairVal_le _, hexPairVal_le _, hexPairVal_le _⟩
    · rw [if_neg h] at hv
      match hl : List.lookup (lowerAll s) COLORS with
      | none =>
        rw [hl] at hv
        by_cases hp : lowerAll s ∈ protoKeys
        · rw [if_pos hp] at hv
          exact absurd hv (by simp)
        · rw [if_neg hp] at hv
          obtain rfl : whiteRgb = v := by simpa using hv
          exact ⟨by decide, by decide, by decide⟩
      | some w =>
        rw [hl] at hv
        obtain rfl : w = v := by simpa using hv
        have := colors_le _ (lookup_some_mem hl)
        simpa using this

/-- C4 (amended): non-string input gives white; a bare 6-hex-digit string
(case-insensitive, *without* a leading `#`) decodes directly; any other
string goes through `COLORS[lowercased] || white`: an own palette entry when
the lowercased key matches one, a truthy `Object.prototype` member — not an
RGB triple, its `r`/`g`/`b` reads give `undefined` — when the lowercased
key names one (`constructor`, `toString`, `__proto__`, …, the `||` fallback
being skipped), and white otherwise; every RGB result has components in
[0, 255]. -/
theorem C4_parseColor_total :
    parseColor none = ColorVal.rgbVal whiteRgb ∧
    (∀ s, isHex6 s = true → parseColor (some s) = ColorVal.rgbVal (hexDecodeRgb s)) ∧
    (∀ s c, isHex6 s = false → List.lookup (lowerAll s) COLORS = some c →
      parseColor (some s) = ColorVal.rgbVal c) ∧
    (∀ s, isHex6 s = false → List.lookup (lowerAll s) COLORS = none →
      lowerAll s ∈ protoKeys → parseColor (some s) = ColorVal.protoVal) ∧
    (∀ s, isHex6 s = false → List.lookup (lowerAll s) COLORS = none →
      lowerAll s ∉ protoKeys → parseColor (some s) = ColorVal.rgbVal whiteRgb) ∧
    (∀ c v, parseColor c = ColorVal.rgbVal v →
      v.r ≤ 255 ∧ v.g ≤ 255 ∧ v.b ≤ 255) := by
  refine ⟨rfl, ?_, ?_, ?_, ?_, ?_⟩
  · intro s h
    simp [parseColor, h]
  · intro s c h1 h2
    simp [parseColor, h1, h2]
  · intro s h1 h2 h3
    simp [parseColor, h1, h2, h3]
  · intro s h1 h2 h3
    simp [parseColor, h1, h2, h3]
  · exact parseColor_le

/-- C4 counterexample: the claim admits an optional leading `#`, but the
source's `/^[0-9A-Fa-f]{6}$/` does not: `"#FF0000"` falls through to the
palette lookup and comes back white, not red; and the claimed totality
fails: `"constructor"` reaches `Object.prototype.constructor`, a truthy
non-RGB value, so the white fallback is skipped and `r` reads `undefined`. -/
theorem C4_hash_hex_counterexample :
    (parseColor (some (asBytes "#FF0000")) = ColorVal.rgbVal whiteRgb ∧
      whiteRgb ≠ Rgb.mk 255 0 0) ∧
    (parseColor (some (asBytes "constructor")) = ColorVal.protoVal ∧
      ColorVal.r ColorVal.protoVal = none ∧
      ColorVal.protoVal ≠ ColorVal.rgbVal whiteRgb) := by
  exact ⟨⟨by decide, by decide⟩, by decide, by decide, by decide⟩

/-- C4 witness: a bare 6-hex-digit string decodes directly, and the
prototype key `constructor` reaches a prototype member. -/
theorem C4_witness :
    parseColor (some (asBytes "4caf50")) = ColorVal.rgbVal (Rgb.mk 76 175 80) ∧
    parseColor (some (asBytes "constructor")) = ColorVal.protoVal := by
  constructor
  · have h := C4_parseColor_total.2.1 (asBytes "4caf50") (by decide)
    exact h.trans (by decide)
  · exact C4_parseColor_total.2.2.2.1 (asBytes "constructor") (by decide) (by decide)
      (by decide)

/-- C9: a falsy icon parameter (`undefined`/`null` modelled as `none`, or
the empty string) makes `generateIcon` return `null` immediately, whatever
the fetch and processing oracles would have produced — no URL resolution or
network fetch can influence the result. -/
theorem C9_falsy_icon_short_circuit :
    ∀ (iconColor fetchOutcome sanitized : Option (List Nat)) (sharpOutcome : Option SvgRes),
      generateIcon none iconColor fetchOutcome sanitized sharpOutcome = none ∧
      generateIcon (some []) iconColor fetchOutcome sanitized sharpOutcome = none := by
  intro iconColor fetchOutcome sanitized sharpOutcome
  exact ⟨rfl, rfl⟩

/-- C10: `parseColor` lowercases before the palette lookup while the palette
keys `grayLight`, `grayDark`, `lightBlue`, `skyBlue`, `dustyBlue` contain
uppercase letters, so every string whose lowercase form is one of those
names resolves to white, even though the entries are present in `COLORS`
with non-white values. -/
theorem C10_camelCase_palette_unreachable :
    (∀ s, lowerAll s = asBytes "graylight" ∨ lowerAll s = asBytes "graydark" ∨
      lowerAll s = asBytes "lightblue" ∨ lowerAll s = asBytes "skyblue" ∨
      lowerAll s = asBytes "dustyblue" → parseColor (some s) = ColorVal.rgbVal whiteRgb) ∧
    List.lookup (asBytes "grayLight") COLORS = some ⟨245, 245, 247⟩ ∧
    List.lookup (asBytes "grayDark") COLORS = some ⟨64, 64, 64⟩ ∧
    List.lookup (asBytes "lightBlue") COLORS = some ⟨173, 216, 230⟩ ∧
    List.lookup (asBytes "skyBlue") COLORS = some ⟨135, 206, 235⟩ ∧
    List.lookup (asBytes "dustyBlue") COLORS = some ⟨96, 147, 172⟩ ∧
    (⟨245, 245, 247⟩ : Rgb) ≠ whiteRgb := by
  refine ⟨?_, by decide, by decide, by decide, by decide, by decide, by decide⟩
  intro s h
  have hlen : s.length = (lowerAll s).length := by simp [lowerAll]
  have hhex : isHex6 s = false := by
    rcases h with h | h | h | h | h <;>
      · rw [h] at hlen
        simp only [isHex6]
        have : s.length ≠ 6 := by rw [hlen]; decide
        simp [this]
  rw [parseColor, if_neg (by simp [hhex])]
  rcases h with h | h | h | h | h <;> rw [h] <;> decide

/-- C10 witness: the exact palette spelling `grayLight` itself parses to
white. -/
theorem C10_witness : parseColor (some (asBytes "grayLight")) = ColorVal.rgbVal whiteRgb := by
  exact C10_camelCase_palette_unreachable.1 (asBytes "grayLight") (Or.inl (by decide))

/-- C3: magic-number buffers free of HTML markers in their first 200 bytes
are valid; any buffer whose first 200 bytes contain an `<html` or
`<!DOCTYPE` marker is invalid regardless of its binary signature; a null or
empty buffer is invalid.  (A marker "contained in the first 200 bytes" is
the ASCII byte sequence occurring in `buf.take 200`, which is exactly what
the source's UTF-8 decode plus `includes` tests.) -/
theorem C3_isValidImageBuffer_classification :
    (∀ buf : List Nat,
      ((patAt [137, 80, 78, 71, 13, 10, 26, 10] buf).isSome ∨
       (patAt [255, 216, 255] buf).isSome ∨
       (patAt [71, 73, 70, 56, 55, 97] buf).isSome ∨
       (patAt [71, 73, 70, 56, 57, 97] buf).isSome ∨
       (patAt [82, 73, 70, 70] buf).isSome) →
      containsSeq (asBytes "<html") (buf.take 200) = false →
      containsSeq (asBytes "<!DOCTYPE") (buf.take 200) = false →
      containsSeq (asBytes "<body") (buf.take 200) = false →
      containsSeq (asBytes "Error") (buf.take 200) = false →
      isValidImageBuffer buf = true) ∧
    (∀ buf : List Nat,
      containsSeq (asBytes "<html") (buf.take 200) = true ∨
      containsSeq (asBytes "<!DOCTYPE") (buf.take 200) = true →
      isValidImageBuffer buf = false) ∧
    isValidImageBuffer [] = false ∧ isValidImageBufferOpt none = false := by
  refine ⟨?_, ?_, by decide, by decide⟩
  · intro buf hsig h1 h2 h3 h4
    match buf with
    | [] => simp [patAt] at hsig
    | c :: cs =>
      rw [isValidImageBuffer]
      rw [if_neg (by simp)]
      rw [if_neg (by rw [h1, h2, h3, h4]; simp)]
      rw [if_pos ?_]
      rcases hsig with h | h | h | h | h <;> simp [h]
  · intro buf h
    match buf with
    | [] => decide
    | c :: cs =>
      rw [isValidImageBuffer]
      rw [if_neg (by simp)]
      rw [if_pos ?_]
      rcases h with h | h <;> rw [h] <;> simp

/-- C3 witness: a PNG-signed buffer with benign content is valid. -/
theorem C3_witness :
    isValidImageBuffer [137, 80, 78, 71, 13, 10, 26, 10, 42, 42] = true := by
  exact C3_isValidImageBuffer_classification.1 _ (Or.inl (by decide)) (by decide)
    (by decide) (by decide) (by decide)

/-- An infix of the left part of an append is an infix of the whole. -/
theorem infix_append_left {α : Type} {x A : List α} (B : List α) (h : x <:+: A) :
    x <:+: A ++ B :=
  h.trans (List.prefix_append A B).isInfix

/-- The badge's layout height is the constant 32. -/
theorem badgeDims_height (ico : Option IconData) :
    (calculateBadgeDimensions ico).height = 32 := rfl

/-- C8 (amended): the rect's corner-radius fragment is a direct function of
the lowercased edge style — `rounded`/`round` give `rx="8" ry="8"`,
`square`/`sharp`/`squared` give `rx="0" ry="0"`, `pill` gives half the badge
height (`rx="16" ry="16"`), and **any other value yields an empty fragment
(no `rx`/`ry` attributes at all, i.e. sharp corners), not the rounded
default** — and the fragment is embedded in `generateBadgeSvg`'s output. -/
theorem C8_cornerRadius_amended :
    (∀ e, lowerAll e = asBytes "rounded" ∨ lowerAll e = asBytes "round" →
      cornerRadiusFragment e 32 = asBytes "rx=\"8\" ry=\"8\"") ∧
    (∀ e, lowerAll e = asBytes "square" ∨ lowerAll e = asBytes "sharp" ∨
      lowerAll e = asBytes "squared" → cornerRadiusFragment e 32 = asBytes "rx=\"0\" ry=\"0\"") ∧
    (∀ e, lowerAll e = asBytes "pill" → cornerRadiusFragment e 32 = asBytes "rx=\"16\" ry=\"16\"") ∧
    (∀ e, lowerAll e ≠ asBytes "rounded" → lowerAll e ≠ asBytes "round" →
      lowerAll e ≠ asBytes "square" → lowerAll e ≠ asBytes "sharp" →
      lowerAll e ≠ asBytes "squared" → lowerAll e ≠ asBytes "pill" →
      cornerRadiusFragment e 32 = []) ∧
    (∀ text bg ico tc e, cornerRadiusFragment e 32 <:+: generateBadgeSvg text bg ico tc e) := by
  refine ⟨?_, ?_, ?_, ?_, ?_⟩
  · intro e h
    rcases h with h | h <;> (simp only [cornerRadiusFragment, h]; decide)
  · intro e h
    rcases h with h | h | h <;> (simp only [cornerRadiusFragment, h]; decide)
  · intro e h
    have h2 : (32 : ℚ) / 2 = 16 := by norm_num
    simp only [cornerRadiusFragment, h, h2]
    decide
  · intro e h1 h2 h3 h4 h5 h6
    simp only [cornerRadiusFragment]
    rw [if_neg (not_or.mpr ⟨h1, h2⟩)]
    rw [if_neg (by push_neg; exact ⟨h3, h4, h5⟩)]
    rw [if_neg h6]
  · intro text bg ico tc e
    simp only [generateBadgeSvg, badgeDims_height]
    iterate 5 apply infix_append_left
    exact (List.suffix_append _ _).isInfix

/-- C8 counterexample: an unrecognized edge style produces an empty
corner-radius fragment, not the claimed rounded default. -/
theorem C8_default_counterexample :
    cornerRadiusFragment (asBytes "beveled") 32 = [] ∧
    cornerRadiusFragment (asBytes "beveled") 32 ≠ asBytes "rx=\"8\" ry=\"8\"" := by
  constructor
  · decide
  · decide

/-- C8 witness: the `SQUARE` style (any casing) yields zero corner radius. -/
theorem C8_witness : cornerRadiusFragment (asBytes "SQUARE") 32 = asBytes "rx=\"0\" ry=\"0\"" :=
  C8_cornerRadius_amended.2.1 (asBytes "SQUARE") (Or.inl (by decide))

/-- `Math.round` is monotone. -/
theorem jsRound_mono {x y : ℚ} (h : x ≤ y) : jsRound x ≤ jsRound y := by
  unfold jsRound
  have := Int.floor_le_floor (α := ℚ) (by linarith : x + 1 / 2 ≤ y + 1 / 2)
  exact_mod_cast this

/-- `Math.round x ≤ 32` whenever `x ≤ 32`. -/
theorem jsRound_le_32 {x : ℚ} (h : x ≤ 32) : jsRound x ≤ 32 := by
  have h1 := jsRound_mono h
  have h2 : jsRound (32 : ℚ) = 32 := by
    unfold jsRound
    norm_num
  rw [h2] at h1
  exact h1

/-- `min a b < a ↔ b < a`. -/
theorem min_lt_left_iff {a b : ℚ} : min a b < a ↔ b < a := by
  constructor
  · intro h
    rcases min_lt_iff.mp h with h' | h'
    · exact absurd h' (lt_irrefl a)
    · exact h'
  · intro h
    rw [min_eq_right (le_of_lt h)]
    exact h

/-- C6 (amended): for positive icon dimensions the computed box always has
height at least 12; its width is at most 32 *except* when the 12px
minimum-height enforcement recomputes it as `round(12·w/h)`; its height is
at most 20 *except* when the 32px width clamp recomputes it as
`round(32·h/w)`; and whenever a clamp fires the other dimension is exactly
the rounded recomputation from the aspect ratio (the code never re-clamps a
recomputed dimension). -/
theorem C6_badgeDims_clamp_amended :
    ∀ w h : ℚ, 0 < w → 0 < h →
      (12 ≤ (calculateBadgeDimensions (some ⟨[], w, h⟩)).iconHeight) ∧
      ((calculateBadgeDimensions (some ⟨[], w, h⟩)).iconWidth ≤ 32 ∨
        (calculateBadgeDimensions (some ⟨[], w, h⟩)).iconWidth = jsRound (12 * (w / h))) ∧
      ((calculateBadgeDimensions (some ⟨[], w, h⟩)).iconHeight ≤ 20 ∨
        (calculateBadgeDimensions (some ⟨[], w, h⟩)).iconHeight = jsRound (32 * (h / w))) ∧
      (32 < w →
        (calculateBadgeDimensions (some ⟨[], w, h⟩)).iconWidth = 32 ∨
        ((calculateBadgeDimensions (some ⟨[], w, h⟩)).iconHeight = 12 ∧
         (calculateBadgeDimensions (some ⟨[], w, h⟩)).iconWidth = jsRound (12 * (w / h)))) ∧
      (w ≤ 32 → 20 < h →
        (calculateBadgeDimensions (some ⟨[], w, h⟩)).iconHeight = 20 ∧
        (calculateBadgeDimensions (some ⟨[], w, h⟩)).iconWidth = jsRound (20 * (w / h))) := by
  intro w h hw hh
  have hW : (calculateBadgeDimensions (some ⟨[], w, h⟩)).iconWidth = (clampIconBox w h).1 := rfl
  have hH : (calculateBadgeDimensions (some ⟨[], w, h⟩)).iconHeight = (clampIconBox w h).2 := rfl
  rw [hW, hH]
  have hn12 : ¬ ((20 : ℚ) < 12) := by norm_num
  by_cases h32 : 32 < w
  · -- width clamp branch: s1 = (32, round(32 / (w/h)))
    have hm : min w 32 = 32 := min_eq_right (le_of_lt h32)
    have hdiv : 32 / (w / h) = 32 * (h / w) := by
      rw [div_div_eq_mul_div, mul_div_assoc]
    by_cases h12 : jsRound (32 / (w / h)) < 12
    · have hb : clampIconBox w h = (jsRound (12 * (w / h)), 12) := by
        simp only [clampIconBox]
        simp [hm, h32, h12]
      rw [hb]
      refine ⟨by norm_num, Or.inr rfl, Or.inl (by norm_num), fun _ => Or.inr ⟨rfl, rfl⟩,
        fun hle _ => absurd h32 (not_lt.mpr hle)⟩
    · have hb : clampIconBox w h = (32, jsRound (32 / (w / h))) := by
        simp only [clampIconBox]
        simp [hm, h32, h12]
      rw [hb]
      refine ⟨le_of_not_lt h12, Or.inl (by norm_num), Or.inr (by simp [hdiv]),
        fun _ => Or.inl rfl, fun hle _ => absurd h32 (not_lt.mpr hle)⟩
  · -- no width clamp
    have hwle : w ≤ 32 := le_of_not_lt h32
    have hmw : min w 32 = w := min_eq_left hwle
    by_cases h20 : 20 < h
    · -- height clamp branch: s1 = (round(20 * (w/h)), 20)
      have hm : min h 20 = 20 := min_eq_right (le_of_lt h20)
      have hb : clampIconBox w h = (jsRound (20 * (w / h)), 20) := by
        simp only [clampIconBox]
        simp [hmw, hm, h20, hn12]
      rw [hb]
      have hwb : jsRound (20 * (w / h)) ≤ 32 := by
        apply jsRound_le_32
        have he : 20 * (w / h) = 20 * w / h := (mul_div_assoc _ _ _).symm
        rw [he]
        exact (div_le_iff₀ hh).mpr (by linarith)
      refine ⟨by norm_num, Or.inl hwb, Or.inl (by norm_num), fun hc => absurd hc h32,
        fun _ _ => ⟨rfl, rfl⟩⟩
    · -- no clamp at all: s1 = (w, h)
      have hhle : h ≤ 20 := le_of_not_lt h20
      have hmh : min h 20 = h := min_eq_left hhle
      by_cases h12 : h < 12
      · have hb : clampIconBox w h = (jsRound (12 * (w / h)), 12) := by
          simp only [clampIconBox]
          simp [hmw, hmh, h20, h12]
        rw [hb]
        refine ⟨by norm_num, Or.inr rfl, Or.inl (by norm_num), fun hc => absurd hc h32,
          fun _ hc => absurd hc h20⟩
      · have hb : clampIconBox w h = (w, h) := by
          simp only [clampIconBox]
          simp [hmw, hmh, h20, h12]
        rw [hb]
        refine ⟨le_of_not_lt h12, Or.inl hwle, Or.inl hhle, fun hc => absurd hc h32,
          fun _ hc => absurd hc h20⟩

/-- C6 counterexample: the clamps are not re-applied after the aspect-ratio
recomputation — a 40×1000 icon gets box 32×800 (height far above the claimed
20px maximum) and a 100×10 icon gets box 120×12 (width far above the claimed
32px maximum). -/
theorem C6_clamp_counterexample :
    (calculateBadgeDimensions (some ⟨[], 40, 1000⟩)).iconHeight = 800 ∧
    ¬ (calculateBadgeDimensions (some ⟨[], 40, 1000⟩)).iconHeight ≤ 20 ∧
    (calculateBadgeDimensions (some ⟨[], 100, 10⟩)).iconWidth = 120 ∧
    ¬ (calculateBadgeDimensions (some ⟨[], 100, 10⟩)).iconWidth ≤ 32 := by
  have h1 : (calculateBadgeDimensions (some ⟨[], 40, 1000⟩)).iconHeight =
      (clampIconBox 40 1000).2 := rfl
  have h2 : (calculateBadgeDimensions (some ⟨[], 100, 10⟩)).iconWidth =
      (clampIconBox 100 10).1 := rfl
  have e1 : clampIconBox 40 1000 = (32, 800) := by
    simp only [clampIconBox]
    norm_num [min_def, jsRound]
  have e2 : clampIconBox 100 10 = (120, 12) := by
    simp only [clampIconBox]
    norm_num [min_def, jsRound]
  rw [h1, h2, e1, e2]
  norm_num

/-- C6 witness: at 100×10 the amended bounds hold (via the recomputation
disjunct for the width). -/
theorem C6_witness :
    12 ≤ (calculateBadgeDimensions (some ⟨[], 100, 10⟩)).iconHeight ∧
    ((calculateBadgeDimensions (some ⟨[], 100, 10⟩)).iconWidth ≤ 32 ∨
     (calculateBadgeDimensions (some ⟨[], 100, 10⟩)).iconWidth = jsRound (12 * (100 / 10))) :=
  ⟨(C6_badgeDims_clamp_amended 100 10 (by norm_num) (by norm_num)).1,
   (C6_badgeDims_clamp_amended 100 10 (by norm_num) (by norm_num)).2.1⟩

/-- C5 (amended): whenever `processSvgImage` succeeds, the returned height
is exactly 16 and the width is `round(16 · w/h)` of the extracted intrinsic
box, which is always positive and defaults to 24×24 when no
`viewBox`/`width`/`height` attribute matches; **the computed width is not
clamped to any maximum** (see the counterexample); a sanitizer failure gives
`null`. -/
theorem C5_processSvg_amended :
    (∀ s res, processSvgImage (some s) = some res →
      res.height = 16 ∧
      res.width = jsRound (16 * ((svgIntrinsicSize s).w / (svgIntrinsicSize s).h))) ∧
    (∀ s, 0 < (svgIntrinsicSize s).w ∧ 0 < (svgIntrinsicSize s).h) ∧
    (∀ s, attrCapture (asBytes "viewBox=") s = none →
      attrCapture (asBytes "width=") s = none →
      attrCapture (asBytes "height=") s = none →
      (svgIntrinsicSize s).w = 24 ∧ (svgIntrinsicSize s).h = 24) ∧
    processSvgImage none = none := by
  refine ⟨?_, ?_, ?_, rfl⟩
  · intro s res h
    simp only [processSvgImage, Option.map_some'] at h
    obtain rfl : ({ svgString := s, width := svgTargetWidth s, height := 16 } : SvgRes) = res :=
      Option.some.inj h
    exact ⟨rfl, rfl⟩
  · intro s
    constructor
    · simp only [svgIntrinsicSize]
      split_ifs with hc
      · norm_num
      · exact lt_of_not_le hc
    · simp only [svgIntrinsicSize]
      split_ifs with hc
      · norm_num
      · exact lt_of_not_le hc
  · intro s h1 h2 h3
    simp only [svgIntrinsicSize, h1, h2, h3]
    norm_num

/-- `parseFloat` on the digit run `"1000"`. -/
theorem parseJsFloat_1000 : parseJsFloat [49, 48, 48, 48] = some 1000 := by
  norm_num [parseJsFloat, isWsByte, isDigitByte, digitsValN]

/-- `parseFloat` on the digit `"1"`. -/
theorem parseJsFloat_1 : parseJsFloat [49] = some 1 := by
  norm_num [parseJsFloat, isWsByte, isDigitByte, digitsValN]

/-- `parseFloat` on the digit `"0"`. -/
theorem parseJsFloat_0 : parseJsFloat [48] = some 0 := by
  norm_num [parseJsFloat, isWsByte, isDigitByte, digitsValN]

/-- `parseFloat` on the digit run `"48"`. -/
theorem parseJsFloat_48 : parseJsFloat [52, 56] = some 48 := by
  norm_num [parseJsFloat, isWsByte, isDigitByte, digitsValN]

/-- `parseFloat` on the digit run `"24"`. -/
theorem parseJsFloat_24 : parseJsFloat [50, 52] = some 24 := by
  norm_num [parseJsFloat, isWsByte, isDigitByte, digitsValN]

set_option maxRecDepth 4096 in
/-- C5 counterexample: an SVG with `viewBox="0 0 1000 1"` comes back 16000
pixels wide — `processSvgImage` applies no maximum-width clamp at all (the
16000 exceeds both the 32px icon-box maximum used by the layout engine and
any plausible badge width). -/
theorem C5_noclamp_counterexample :
    processSvgImage (some (asBytes "<svg viewBox=\"0 0 1000 1\"></svg>")) =
      some ⟨asBytes "<svg viewBox=\"0 0 1000 1\"></svg>", 16000, 16⟩ ∧
    ¬ ((16000 : ℚ) ≤ 32) := by
  have hvb : attrCapture (asBytes "viewBox=") (asBytes "<svg viewBox=\"0 0 1000 1\"></svg>") =
      some [48, 32, 48, 32, 49, 48, 48, 48, 32, 49] := by decide
  have hsplit : splitWs [48, 32, 48, 32, 49, 48, 48, 48, 32, 49] =
      [[48], [48], [49, 48, 48, 48], [49]] := by
    simp [splitWs, isWsByte]
  have hbox : svgIntrinsicSize (asBytes "<svg viewBox=\"0 0 1000 1\"></svg>") =
      ⟨0, 0, 1000, 1⟩ := by
    simp only [svgIntrinsicSize, hvb, hsplit]
    norm_num [parseJsFloat_1000, parseJsFloat_1, parseJsFloat_0, jsOr0, jsOr24]
  have hw : svgTargetWidth (asBytes "<svg viewBox=\"0 0 1000 1\"></svg>") = 16000 := by
    rw [svgTargetWidth, hbox]
    norm_num [jsRound]
  refine ⟨?_, by norm_num⟩
  simp only [processSvgImage, Option.map_some']
  rw [hw]

/-- C5 witness: a 48×24 SVG (attribute-based extraction) scales to 32×16. -/
theorem C5_witness :
    SvgRes.height ⟨asBytes "<svg width=\"48\" height=\"24\"></svg>", 32, 16⟩ = 16 ∧
    SvgRes.width ⟨asBytes "<svg width=\"48\" height=\"24\"></svg>", 32, 16⟩ =
      jsRound (16 * ((svgIntrinsicSize (asBytes "<svg width=\"48\" height=\"24\"></svg>")).w /
        (svgIntrinsicSize (asBytes "<svg width=\"48\" height=\"24\"></svg>")).h)) := by
  apply C5_processSvg_amended.1
  have hvb : attrCapture (asBytes "viewBox=") (asBytes "<svg width=\"48\" height=\"24\"></svg>") =
      none := by decide
  have hwa : attrCapture (asBytes "width=") (asBytes "<svg width=\"48\" height=\"24\"></svg>") =
      some [52, 56] := by decide
  have hha : attrCapture (asBytes "height=") (asBytes "<svg width=\"48\" height=\"24\"></svg>") =
      some [50, 52] := by decide
  have hbox : svgIntrinsicSize (asBytes "<svg width=\"48\" height=\"24\"></svg>") =
      ⟨0, 0, 48, 24⟩ := by
    simp only [svgIntrinsicSize, hvb, hwa, hha, parseJsFloat_48, parseJsFloat_24]
    norm_num [jsOr24]
  simp only [processSvgImage, Option.map_some']
  have hw : svgTargetWidth (asBytes "<svg width=\"48\" height=\"24\"></svg>") = 32 := by
    rw [svgTargetWidth, hbox]
    norm_num [jsRound]
  rw [hw]

/-- An ASCII digit is not an uppercase letter, so `toLowerCase` fixes it. -/
theorem digit_lower_self {c : Nat} (h48 : 48 ≤ c) (h57 : c ≤ 57) : lowerByte c = c := by
  simp only [lowerByte]
  rw [if_neg]
  omega

/-- `patAtCI` fails when the first characters differ. -/
theorem patAtCI_ne_head {p c : Nat} (ps cs : List Nat) (h : lowerByte c ≠ p) :
    patAtCI (p :: ps) (c :: cs) = none := by
  simp [patAtCI, h]

/-- The `fill=` pass cannot start a match at a digit. -/
theorem tryFill_digit (FC : List Nat) {c : Nat} (l : List Nat)
    (h48 : 48 ≤ c) (h57 : c ≤ 57) : tryPaintAttr (asBytes "fill") FC (c :: l) = none := by
  have h1 : asBytes "fill" ++ [61] = 102 :: [105, 108, 108, 61] := by decide
  have h2 : patAtCI (102 :: [105, 108, 108, 61]) (c :: l) = none :=
    patAtCI_ne_head _ _ (by rw [digit_lower_self h48 h57]; omega)
  simp only [tryPaintAttr, h1, h2]

/-- The `stroke=` pass cannot start a match at a digit. -/
theorem tryStroke_digit (FC : List Nat) {c : Nat} (l : List Nat)
    (h48 : 48 ≤ c) (h57 : c ≤ 57) : tryPaintAttr (asBytes "stroke") FC (c :: l) = none := by
  have h1 : asBytes "stroke" ++ [61] = 115 :: [116, 114, 111, 107, 101, 61] := by decide
  have h2 : patAtCI (115 :: [116, 114, 111, 107, 101, 61]) (c :: l) = none :=
    patAtCI_ne_head _ _ (by rw [digit_lower_self h48 h57]; omega)
  simp only [tryPaintAttr, h1, h2]

/-- The `<style>` block pass cannot start a match at a digit. -/
theorem tryStyleBlock_digit (FC : List Nat) {c : Nat} (l : List Nat)
    (h48 : 48 ≤ c) (h57 : c ≤ 57) : tryStyleBlock FC (c :: l) = none := by
  have h1 : asBytes "<style" = 60 :: [115, 116, 121, 108, 101] := by decide
  have h2 : patAtCI (60 :: [115, 116, 121, 108, 101]) (c :: l) = none :=
    patAtCI_ne_head _ _ (by rw [digit_lower_self h48 h57]; omega)
  simp only [tryStyleBlock, h1, h2]

/-- The `style=` attribute pass cannot start a match at a digit. -/
theorem tryStyleAttr_digit (FC : List Nat) {c : Nat} (l : List Nat)
    (h48 : 48 ≤ c) (h57 : c ≤ 57) : tryStyleAttr FC (c :: l) = none := by
  have h1 : asBytes "style=" = 115 :: [116, 121, 108, 101, 61] := by decide
  have h2 : patAtCI (115 :: [116, 121, 108, 101, 61]) (c :: l) = none :=
    patAtCI_ne_head _ _ (by rw [digit_lower_self h48 h57]; omega)
  simp only [tryStyleAttr, h1, h2]

/-- No default-fill element pass can start a match at a digit (their
patterns all begin with `<`). -/
theorem tryElemInsert_digit (elname FC : List Nat) {c : Nat} (l : List Nat)
    (h48 : 48 ≤ c) (h57 : c ≤ 57) : tryElemInsert elname FC (c :: l) = none := by
  have h2 : patAtCI (60 :: elname) (c :: l) = none :=
    patAtCI_ne_head _ _ (by rw [digit_lower_self h48 h57]; omega)
  simp only [tryElemInsert, h2]

/-- A pass that cannot match at a digit scans over a digit run unchanged. -/
theorem scan_skip_digits (tr : List Nat → Option (List Nat × Nat))
    (htr : ∀ (c : Nat) (l : List Nat), 48 ≤ c → c ≤ 57 → tr (c :: l) = none)
    {D : List Nat} (hD : ∀ x ∈ D, 48 ≤ x ∧ x ≤ 57) (rest : List Nat) :
    scanRw tr (D ++ rest) = D ++ scanRw tr rest :=
  scanRw_skip_chunk tr (fun c => 48 ≤ c ∧ c ≤ 57)
    (fun c l hc => htr c l hc.1 hc.2) D hD rest

/-- `$`-expansion walks over a digit run unchanged. -/
theorem dollarExpand_skip_digits (m pre post : List Nat) :
    ∀ {D : List Nat}, (∀ x ∈ D, 48 ≤ x ∧ x ≤ 57) → ∀ rest,
      dollarExpand m pre post (D ++ rest) = D ++ dollarExpand m pre post rest := by
  intro D
  induction D with
  | nil => intro _ rest; simp
  | cons c D ih =>
    intro hD rest
    have hc : c ≠ 36 := by
      have := hD c (by simp)
      omega
    match hDr : D ++ rest with
    | [] =>
      rcases List.append_eq_nil.mp hDr with ⟨rfl, rfl⟩
      simp [dollarExpand]
    | d :: r2 =>
      rw [List.cons_append, hDr, dollarExpand, if_neg hc, ← hDr,
        ih (fun x hx => hD x (by simp [hx])) rest]
      simp

/-- `tryDeclAll` cannot start a match at a digit when its pattern starts
with a non-digit. -/
theorem tryDeclAll_digit {p : Nat} (ps FC : List Nat) {c : Nat} (l : List Nat)
    (h48 : 48 ≤ c) (h57 : c ≤ 57) (hp : p < 48 ∨ 57 < p) :
    tryDeclAll (p :: ps) FC (c :: l) = none := by
  have h2 : patAtCI (p :: ps) (c :: l) = none :=
    patAtCI_ne_head _ _ (by rw [digit_lower_self h48 h57]; omega)
  simp only [tryDeclAll, h2]

/-- `tryDeclCond` cannot start a match at a digit when its pattern starts
with a non-digit. -/
theorem tryDeclCond_digit {p : Nat} (ps FC : List Nat) {c : Nat} (l : List Nat)
    (h48 : 48 ≤ c) (h57 : c ≤ 57) (hp : p < 48 ∨ 57 < p) :
    tryDeclCond (p :: ps) FC (c :: l) = none := by
  have h2 : patAtCI (p :: ps) (c :: l) = none :=
    patAtCI_ne_head _ _ (by rw [digit_lower_self h48 h57]; omega)
  simp only [tryDeclCond, h2]

/-- `$`-expansion steps over any non-`$` head character, whatever the tail. -/
theorem dollarExpand_step_ne (m pre post : List Nat) {c : Nat} (r : List Nat) (hc : c ≠ 36) :
    dollarExpand m pre post (c :: r) = c :: dollarExpand m pre post r := by
  match r with
  | [] => simp [dollarExpand]
  | d :: r2 => rw [dollarExpand, if_neg hc]

set_option maxHeartbeats 3200000 in
/-- Evaluation of the vector-recoloring pass chain on a representative
family of markup fragments, for an arbitrary `rgb(R, G, B)` replacement text
(the digit runs `Dr`,`Dg`,`Db` abstract): the preserve-list values
`none`/`Transparent`/`url(…)`/gradient-containing stay byte-identical,
plain and `currentColor` paint values are rewritten, inline-style
declarations follow the preserve list, and `<style>`-block declarations are
rewritten unconditionally. -/
theorem recolor_core_samples (Dr Dg Db : List Nat)
    (hDr : ∀ x ∈ Dr, 48 ≤ x ∧ x ≤ 57) (hDg : ∀ x ∈ Dg, 48 ≤ x ∧ x ≤ 57)
    (hDb : ∀ x ∈ Db, 48 ≤ x ∧ x ≤ 57) :
    (vectorRecolor (114 :: 103 :: 98 :: 40 :: (Dr ++ 44 :: 32 :: (Dg ++ 44 :: 32 :: (Db ++ [41])))) (asBytes "<path fill=\"none\"/>") =
      asBytes "<path fill=\"none\"/>") ∧
    (vectorRecolor (114 :: 103 :: 98 :: 40 :: (Dr ++ 44 :: 32 :: (Dg ++ 44 :: 32 :: (Db ++ [41])))) (asBytes "<path fill=\"Transparent\"/>") =
      asBytes "<path fill=\"Transparent\"/>") ∧
    (vectorRecolor (114 :: 103 :: 98 :: 40 :: (Dr ++ 44 :: 32 :: (Dg ++ 44 :: 32 :: (Db ++ [41])))) (asBytes "<path fill=\"url(#grad1)\"/>") =
      asBytes "<path fill=\"url(#grad1)\"/>") ∧
    (vectorRecolor (114 :: 103 :: 98 :: 40 :: (Dr ++ 44 :: 32 :: (Dg ++ 44 :: 32 :: (Db ++ [41])))) (asBytes "<path fill=\"a-gradient-b\"/>") =
      asBytes "<path fill=\"a-gradient-b\"/>") ∧
    (vectorRecolor (114 :: 103 :: 98 :: 40 :: (Dr ++ 44 :: 32 :: (Dg ++ 44 :: 32 :: (Db ++ [41])))) (asBytes "<g stroke=\"none\"/>") =
      asBytes "<g stroke=\"none\"/>") ∧
    (vectorRecolor (114 :: 103 :: 98 :: 40 :: (Dr ++ 44 :: 32 :: (Dg ++ 44 :: 32 :: (Db ++ [41])))) (asBytes "<g fill=\"#000000\"/>") =
      asBytes "<g fill=\"" ++ (114 :: 103 :: 98 :: 40 :: (Dr ++ 44 :: 32 :: (Dg ++ 44 :: 32 :: (Db ++ [41])))) ++ asBytes "\"/>") ∧
    (vectorRecolor (114 :: 103 :: 98 :: 40 :: (Dr ++ 44 :: 32 :: (Dg ++ 44 :: 32 :: (Db ++ [41])))) (asBytes "<g fill=\"currentColor\"/>") =
      asBytes "<g fill=\"" ++ (114 :: 103 :: 98 :: 40 :: (Dr ++ 44 :: 32 :: (Dg ++ 44 :: 32 :: (Db ++ [41])))) ++ asBytes "\"/>") ∧
    (vectorRecolor (114 :: 103 :: 98 :: 40 :: (Dr ++ 44 :: 32 :: (Dg ++ 44 :: 32 :: (Db ++ [41])))) (asBytes "<g stroke=\"#abcdef\"/>") =
      asBytes "<g stroke=\"" ++ (114 :: 103 :: 98 :: 40 :: (Dr ++ 44 :: 32 :: (Dg ++ 44 :: 32 :: (Db ++ [41])))) ++ asBytes "\"/>") ∧
    (vectorRecolor (114 :: 103 :: 98 :: 40 :: (Dr ++ 44 :: 32 :: (Dg ++ 44 :: 32 :: (Db ++ [41])))) (asBytes "<g style=\"fill: none; stroke: #fff\"/>") =
      asBytes "<g style=\"fill: none; stroke: " ++ (114 :: 103 :: 98 :: 40 :: (Dr ++ 44 :: 32 :: (Dg ++ 44 :: 32 :: (Db ++ [41])))) ++ asBytes "\"/>") ∧
    (vectorRecolor (114 :: 103 :: 98 :: 40 :: (Dr ++ 44 :: 32 :: (Dg ++ 44 :: 32 :: (Db ++ [41])))) (asBytes "<style>p\x7bfill:none\x7d</style>") =
      asBytes "<style>p\x7bfill: " ++ (114 :: 103 :: 98 :: 40 :: (Dr ++ 44 :: 32 :: (Dg ++ 44 :: 32 :: (Db ++ [41])))) ++ asBytes "\x7d</style>") := by
  have hskF : ∀ FC rest, scanRw (tryPaintAttr [102, 105, 108, 108] FC) (Dr ++ rest) =
      Dr ++ scanRw (tryPaintAttr [102, 105, 108, 108] FC) rest :=
    fun FC rest => scan_skip_digits _ (fun c l h1 h2 => tryFill_digit FC l h1 h2) hDr rest
  have hskF2 : ∀ FC rest, scanRw (tryPaintAttr [102, 105, 108, 108] FC) (Dg ++ rest) =
      Dg ++ scanRw (tryPaintAttr [102, 105, 108, 108] FC) rest :=
    fun FC rest => scan_skip_digits _ (fun c l h1 h2 => tryFill_digit FC l h1 h2) hDg rest
  have hskF3 : ∀ FC rest, scanRw (tryPaintAttr [102, 105, 108, 108] FC) (Db ++ rest) =
      Db ++ scanRw (tryPaintAttr [102, 105, 108, 108] FC) rest :=
    fun FC rest => scan_skip_digits _ (fun c l h1 h2 => tryFill_digit FC l h1 h2) hDb rest
  have hskS : ∀ FC rest, scanRw (tryPaintAttr [115, 116, 114, 111, 107, 101] FC) (Dr ++ rest) =
      Dr ++ scanRw (tryPaintAttr [115, 116, 114, 111, 107, 101] FC) rest :=
    fun FC rest => scan_skip_digits _ (fun c l h1 h2 => tryStroke_digit FC l h1 h2) hDr rest
  have hskS2 : ∀ FC rest, scanRw (tryPaintAttr [115, 116, 114, 111, 107, 101] FC) (Dg ++ rest) =
      Dg ++ scanRw (tryPaintAttr [115, 116, 114, 111, 107, 101] FC) rest :=
    fun FC rest => scan_skip_digits _ (fun c l h1 h2 => tryStroke_digit FC l h1 h2) hDg rest
  have hskS3 : ∀ FC rest, scanRw (tryPaintAttr [115, 116, 114, 111, 107, 101] FC) (Db ++ rest) =
      Db ++ scanRw (tryPaintAttr [115, 116, 114, 111, 107, 101] FC) rest :=
    fun FC rest => scan_skip_digits _ (fun c l h1 h2 => tryStroke_digit FC l h1 h2) hDb rest
  have hskB : ∀ FC rest, scanRw (tryStyleBlock FC) (Dr ++ rest) =
      Dr ++ scanRw (tryStyleBlock FC) rest :=
    fun FC rest => scan_skip_digits _ (fun c l h1 h2 => tryStyleBlock_digit FC l h1 h2) hDr rest
  have hskB2 : ∀ FC rest, scanRw (tryStyleBlock FC) (Dg ++ rest) =
      Dg ++ scanRw (tryStyleBlock FC) rest :=
    fun FC rest => scan_skip_digits _ (fun c l h1 h2 => tryStyleBlock_digit FC l h1 h2) hDg rest
  have hskB3 : ∀ FC rest, scanRw (tryStyleBlock FC) (Db ++ rest) =
      Db ++ scanRw (tryStyleBlock FC) rest :=
    fun FC rest => scan_skip_digits _ (fun c l h1 h2 => tryStyleBlock_digit FC l h1 h2) hDb rest
  have hskA : ∀ FC rest, scanRw (tryStyleAttr FC) (Dr ++ rest) =
      Dr ++ scanRw (tryStyleAttr FC) rest :=
    fun FC rest => scan_skip_digits _ (fun c l h1 h2 => tryStyleAttr_digit FC l h1 h2) hDr rest
  have hskA2 : ∀ FC rest, scanRw (tryStyleAttr FC) (Dg ++ rest) =
      Dg ++ scanRw (tryStyleAttr FC) rest :=
    fun FC rest => scan_skip_digits _ (fun c l h1 h2 => tryStyleAttr_digit FC l h1 h2) hDg rest
  have hskA3 : ∀ FC rest, scanRw (tryStyleAttr FC) (Db ++ rest) =
      Db ++ scanRw (tryStyleAttr FC) rest :=
    fun FC rest => scan_skip_digits _ (fun c l h1 h2 => tryStyleAttr_digit FC l h1 h2) hDb rest
  have hskE : ∀ elname FC rest, scanRw (tryElemInsert elname FC) (Dr ++ rest) =
      Dr ++ scanRw (tryElemInsert elname FC) rest :=
    fun en FC rest =>
      scan_skip_digits _ (fun c l h1 h2 => tryElemInsert_digit en FC l h1 h2) hDr rest
  have hskE2 : ∀ elname FC rest, scanRw (tryElemInsert elname FC) (Dg ++ rest) =
      Dg ++ scanRw (tryElemInsert elname FC) rest :=
    fun en FC rest =>
      scan_skip_digits _ (fun c l h1 h2 => tryElemInsert_digit en FC l h1 h2) hDg rest
  have hskE3 : ∀ elname FC rest, scanRw (tryElemInsert elname FC) (Db ++ rest) =
      Db ++ scanRw (tryElemInsert elname FC) rest :=
    fun en FC rest =>
      scan_skip_digits _ (fun c l h1 h2 => tryElemInsert_digit en FC l h1 h2) hDb rest
  have hskDr : ∀ p ps FC rest, p < 48 ∨ 57 < p →
      scanRw (tryDeclAll (p :: ps) FC) (Dr ++ rest) = Dr ++ scanRw (tryDeclAll (p :: ps) FC) rest :=
    fun p ps FC rest hp =>
      scan_skip_digits _ (fun c l h1 h2 => tryDeclAll_digit ps FC l h1 h2 hp) hDr rest
  have hskDg : ∀ p ps FC rest, p < 48 ∨ 57 < p →
      scanRw (tryDeclAll (p :: ps) FC) (Dg ++ rest) = Dg ++ scanRw (tryDeclAll (p :: ps) FC) rest :=
    fun p ps FC rest hp =>
      scan_skip_digits _ (fun c l h1 h2 => tryDeclAll_digit ps FC l h1 h2 hp) hDg rest
  have hskDb : ∀ p ps FC rest, p < 48 ∨ 57 < p →
      scanRw (tryDeclAll (p :: ps) FC) (Db ++ rest) = Db ++ scanRw (tryDeclAll (p :: ps) FC) rest :=
    fun p ps FC rest hp =>
      scan_skip_digits _ (fun c l h1 h2 => tryDeclAll_digit ps FC l h1 h2 hp) hDb rest
  have hdeR : ∀ m pre post rest, dollarExpand m pre post (Dr ++ rest) =
      Dr ++ dollarExpand m pre post rest :=
    fun m pre post rest => dollarExpand_skip_digits m pre post hDr rest
  have hdeG : ∀ m pre post rest, dollarExpand m pre post (Dg ++ rest) =
      Dg ++ dollarExpand m pre post rest :=
    fun m pre post rest => dollarExpand_skip_digits m pre post hDg rest
  have hdeB : ∀ m pre post rest, dollarExpand m pre post (Db ++ rest) =
      Db ++ dollarExpand m pre post rest :=
    fun m pre post rest => dollarExpand_skip_digits m pre post hDb rest
  refine ⟨?_, ?_, ?_, ?_, ?_, ?_, ?_, ?_, ?_, ?_⟩ <;>
    simp [vectorRecolor, scanRw, tryPaintAttr, tryStyleBlock, tryStyleAttr, tryElemInsert,
      tryDeclAll, tryDeclCond, rewriteStyleContent, styleContentSpan, jsReplaceFirst,
      findSplit, dollarExpand, patAtCI, patAt, containsSeq, preservedVal, trimBytes,
      lowerAll, lowerByte, isWsByte, asBytes, hskF, hskF2, hskF3, hskS, hskS2, hskS3,
      hskB, hskB2, hskB3, hskA, hskA2, hskA3, hskE, hskE2, hskE3, hskDr, hskDg, hskDb,
      hdeR, hdeG, hdeB, dollarExpand_step_ne]

set_option maxHeartbeats 3200000 in
/-- Evaluation of the vector-recoloring pass chain on the same markup
family when the replacement text is the prototype-member interpolation
`rgb(undefined, undefined, undefined)`. -/
theorem recolor_undef_samples :
    (vectorRecolor (asBytes "rgb(undefined, undefined, undefined)") (asBytes "<path fill=\"none\"/>") =
      asBytes "<path fill=\"none\"/>") ∧
    (vectorRecolor (asBytes "rgb(undefined, undefined, undefined)") (asBytes "<path fill=\"Transparent\"/>") =
      asBytes "<path fill=\"Transparent\"/>") ∧
    (vectorRecolor (asBytes "rgb(undefined, undefined, undefined)") (asBytes "<path fill=\"url(#grad1)\"/>") =
      asBytes "<path fill=\"url(#grad1)\"/>") ∧
    (vectorRecolor (asBytes "rgb(undefined, undefined, undefined)") (asBytes "<path fill=\"a-gradient-b\"/>") =
      asBytes "<path fill=\"a-gradient-b\"/>") ∧
    (vectorRecolor (asBytes "rgb(undefined, undefined, undefined)") (asBytes "<g stroke=\"none\"/>") =
      asBytes "<g stroke=\"none\"/>") ∧
    (vectorRecolor (asBytes "rgb(undefined, undefined, undefined)") (asBytes "<g fill=\"#000000\"/>") =
      asBytes "<g fill=\"" ++ asBytes "rgb(undefined, undefined, undefined)" ++ asBytes "\"/>") ∧
    (vectorRecolor (asBytes "rgb(undefined, undefined, undefined)") (asBytes "<g fill=\"currentColor\"/>") =
      asBytes "<g fill=\"" ++ asBytes "rgb(undefined, undefined, undefined)" ++ asBytes "\"/>") ∧
    (vectorRecolor (asBytes "rgb(undefined, undefined, undefined)") (asBytes "<g stroke=\"#abcdef\"/>") =
      asBytes "<g stroke=\"" ++ asBytes "rgb(undefined, undefined, undefined)" ++ asBytes "\"/>") ∧
    (vectorRecolor (asBytes "rgb(undefined, undefined, undefined)") (asBytes "<g style=\"fill: none; stroke: #fff\"/>") =
      asBytes "<g style=\"fill: none; stroke: " ++ asBytes "rgb(undefined, undefined, undefined)" ++
        asBytes "\"/>") ∧
    (vectorRecolor (asBytes "rgb(undefined, undefined, undefined)") (asBytes "<style>p\x7bfill:none\x7d</style>") =
      asBytes "<style>p\x7bfill: " ++ asBytes "rgb(undefined, undefined, undefined)" ++
        asBytes "\x7d</style>") := by
  refine ⟨?_, ?_, ?_, ?_, ?_, ?_, ?_, ?_, ?_, ?_⟩ <;>
    simp [vectorRecolor, scanRw, tryPaintAttr, tryStyleBlock, tryStyleAttr, tryElemInsert,
      tryDeclAll, tryDeclCond, rewriteStyleContent, styleContentSpan, jsReplaceFirst,
      findSplit, dollarExpand, patAtCI, patAt, containsSeq, preservedVal, trimBytes,
      lowerAll, lowerByte, isWsByte, asBytes]

set_option maxHeartbeats 1600000 in
/-- C2 (amended): over a representative family of SVG fragments without
`<image>` elements, for EVERY target color — including those whose parse
reaches an `Object.prototype` member and interpolates as
`rgb(undefined, undefined, undefined)` — `changeSvgColor` preserves
byte-identically the paint values `none`, `Transparent`, `url(#grad1)` and
gradient-containing values written as `fill=`/`stroke=` attributes or
inside an inline `style=` attribute, and rewrites plain paint values
(`#000000`, `#abcdef`, `#fff`) to the `rgb(r, g, b)` interpolation of the
parsed color; contrary to the claim, `currentColor` attribute values are
rewritten as well, and `<style>`-block declarations are rewritten
unconditionally. -/
theorem C2_recolor_preserve_amended : ∀ color : Option (List Nat),
    (changeSvgColor (asBytes "<path fill=\"none\"/>") color =
      asBytes "<path fill=\"none\"/>") ∧
    (changeSvgColor (asBytes "<path fill=\"Transparent\"/>") color =
      asBytes "<path fill=\"Transparent\"/>") ∧
    (changeSvgColor (asBytes "<path fill=\"url(#grad1)\"/>") color =
      asBytes "<path fill=\"url(#grad1)\"/>") ∧
    (changeSvgColor (asBytes "<path fill=\"a-gradient-b\"/>") color =
      asBytes "<path fill=\"a-gradient-b\"/>") ∧
    (changeSvgColor (asBytes "<g stroke=\"none\"/>") color =
      asBytes "<g stroke=\"none\"/>") ∧
    (changeSvgColor (asBytes "<g fill=\"#000000\"/>") color =
      asBytes "<g fill=\"" ++ fcBytes (parseColor color) ++ asBytes "\"/>") ∧
    (changeSvgColor (asBytes "<g fill=\"currentColor\"/>") color =
      asBytes "<g fill=\"" ++ fcBytes (parseColor color) ++ asBytes "\"/>") ∧
    (changeSvgColor (asBytes "<g stroke=\"#abcdef\"/>") color =
      asBytes "<g stroke=\"" ++ fcBytes (parseColor color) ++ asBytes "\"/>") ∧
    (changeSvgColor (asBytes "<g style=\"fill: none; stroke: #fff\"/>") color =
      asBytes "<g style=\"fill: none; stroke: " ++ fcBytes (parseColor color) ++
        asBytes "\"/>") ∧
    (changeSvgColor (asBytes "<style>p\x7bfill:none\x7d</style>") color =
      asBytes "<style>p\x7bfill: " ++ fcBytes (parseColor color) ++
        asBytes "\x7d</style>") := by
  intro color
  have hcc : ∀ sv, containsSeq (asBytes "<image") sv = false →
      changeSvgColor sv color = vectorRecolor (fcBytes (parseColor color)) sv := by
    intro sv hsv
    simp [changeSvgColor, hsv]
  cases hpc : parseColor color with
  | protoVal =>
    have hfc : fcBytes ColorVal.protoVal =
        asBytes "rgb(undefined, undefined, undefined)" := by
      decide
    obtain ⟨c1, c2, c3, c4, c5, c6, c7, c8, c9, c10⟩ := recolor_undef_samples
    refine ⟨?_, ?_, ?_, ?_, ?_, ?_, ?_, ?_, ?_, ?_⟩
    · rw [hcc _ (by decide), hpc, hfc]; exact c1
    · rw [hcc _ (by decide), hpc, hfc]; exact c2
    · rw [hcc _ (by decide), hpc, hfc]; exact c3
    · rw [hcc _ (by decide), hpc, hfc]; exact c4
    · rw [hcc _ (by decide), hpc, hfc]; exact c5
    · rw [hcc _ (by decide), hpc, hfc]; exact c6
    · rw [hcc _ (by decide), hpc, hfc]; exact c7
    · rw [hcc _ (by decide), hpc, hfc]; exact c8
    · rw [hcc _ (by decide), hpc, hfc]; exact c9
    · rw [hcc _ (by decide), hpc, hfc]; exact c10
  | rgbVal rgb =>
    obtain ⟨h1, h2, h3⟩ := parseColor_le color rgb hpc
    have hfc : fcBytes (ColorVal.rgbVal rgb) =
        114 :: 103 :: 98 :: 40 :: (natBytes rgb.r ++ 44 :: 32 ::
          (natBytes rgb.g ++ 44 :: 32 :: (natBytes rgb.b ++ [41]))) := by
      simp [fcBytes, ColorVal.r, ColorVal.g, ColorVal.b, jsValBytes, asBytes]
    obtain ⟨c1, c2, c3, c4, c5, c6, c7, c8, c9, c10⟩ :=
      recolor_core_samples (natBytes rgb.r) (natBytes rgb.g) (natBytes rgb.b)
        (natBytes_digits _ (by omega)) (natBytes_digits _ (by omega))
        (natBytes_digits _ (by omega))
    refine ⟨?_, ?_, ?_, ?_, ?_, ?_, ?_, ?_, ?_, ?_⟩
    · rw [hcc _ (by decide), hpc, hfc]; exact c1
    · rw [hcc _ (by decide), hpc, hfc]; exact c2
    · rw [hcc _ (by decide), hpc, hfc]; exact c3
    · rw [hcc _ (by decide), hpc, hfc]; exact c4
    · rw [hcc _ (by decide), hpc, hfc]; exact c5
    · rw [hcc _ (by decide), hpc, hfc]; exact c6
    · rw [hcc _ (by decide), hpc, hfc]; exact c7
    · rw [hcc _ (by decide), hpc, hfc]; exact c8
    · rw [hcc _ (by decide), hpc, hfc]; exact c9
    · rw [hcc _ (by decide), hpc, hfc]; exact c10

/-- C2 counterexample: `fill="currentColor"` is NOT preserved — with target
color `red` the attribute value is rewritten to `rgb(244, 67, 54)`. -/
theorem C2_currentColor_counterexample :
    changeSvgColor (asBytes "<g fill=\"currentColor\"/>") (some (asBytes "red")) =
      asBytes "<g fill=\"rgb(244, 67, 54)\"/>" ∧
    changeSvgColor (asBytes "<g fill=\"currentColor\"/>") (some (asBytes "red")) ≠
      asBytes "<g fill=\"currentColor\"/>" := by
  have himg : containsSeq (asBytes "<image") (asBytes "<g fill=\"currentColor\"/>") = false := by
    decide
  have hfc : fcBytes (parseColor (some (asBytes "red"))) =
      114 :: 103 :: 98 :: 40 :: ([50, 52, 52] ++ 44 :: 32 ::
        ([54, 55] ++ 44 :: 32 :: ([53, 52] ++ [41]))) := by decide
  have hred : changeSvgColor (asBytes "<g fill=\"currentColor\"/>") (some (asBytes "red")) =
      vectorRecolor (fcBytes (parseColor (some (asBytes "red"))))
        (asBytes "<g fill=\"currentColor\"/>") := by
    simp [changeSvgColor, himg]
  have h7 := (recolor_core_samples [50, 52, 52] [54, 55] [53, 52]
      (by decide) (by decide) (by decide)).2.2.2.2.2.2.1
  constructor
  · rw [hred, hfc, h7]; decide
  · rw [hred, hfc, h7]; decide
